import Mathlib

/-!
Verification of the wasmer core against its specification.

The definitions below are shallow embeddings of the Rust sources:
machine integers are `Nat` with explicit `% 2^w` where wrap-around
matters, fallible code returns `Option`/`Except`, and `&mut self`
methods become explicit state passing.
-/

namespace Wasmer

/-! ## Value types (src/lib/wasm-common/src/types.rs) -/

/-- A list of all possible value types in WebAssembly (`enum Type`). -/
inductive Ty where
  | I32
  | I64
  | F32
  | F64
  | V128
  | AnyRef
  | FuncRef
  deriving DecidableEq, Repr

/-- The WebAssembly V128 type: 16 bytes (`struct V128([u8; 16])`). -/
structure V128 where
  bytes : List Nat
  deriving DecidableEq, Repr

/-- The signature of a function (`struct FuncType`). -/
structure FuncType where
  params : List Ty
  results : List Ty
  deriving DecidableEq, Repr

/-- `FuncType::new`. -/
def FuncType.new (params : List Ty) (returns : List Ty) : FuncType :=
  { params := params, results := returns }

/-- Indicator of whether a global is mutable or not (`enum Mutability`). -/
inductive Mutability where
  | Const
  | Var
  deriving DecidableEq, Repr

/-- Globals are initialized via `const` operators or by referring to another import
(`enum GlobalInit`). Indices are `Nat`s standing for `GlobalIndex`/`FuncIndex`. -/
inductive GlobalInit where
  | I32Const (x : Int)
  | I64Const (x : Int)
  | F32Const (bits : Nat)
  | F64Const (bits : Nat)
  | V128Const (x : V128)
  | GetGlobal (idx : Nat)
  | RefNullConst
  | RefFunc (idx : Nat)
  | Import
  deriving DecidableEq, Repr

/-- WebAssembly global descriptor (`struct GlobalType`). -/
structure GlobalType where
  ty : Ty
  mutability : Mutability
  initializer : GlobalInit
  deriving DecidableEq, Repr

/-- A descriptor for a table in a WebAssembly module (`struct TableType`). -/
structure TableType where
  ty : Ty
  minimum : Nat
  maximum : Option Nat
  deriving DecidableEq, Repr

/-- A descriptor for a WebAssembly memory type (`struct MemoryType`). -/
structure MemoryType where
  minimum : Nat
  maximum : Option Nat
  shared : Bool
  deriving DecidableEq, Repr

/-! ## Source locations (src/lib/compiler/src/sourceloc.rs) -/

/-- A source location: a 32-bit opaque token (`struct SourceLoc(u32)`). -/
structure SourceLoc where
  bits : Nat
  deriving DecidableEq, Repr

/-- `SourceLoc::new`: create a new source location with the given bits.
The `% 2^32` reflects the `u32` domain of the argument. -/
def SourceLoc.new (bits : Nat) : SourceLoc :=
  ⟨bits % 4294967296⟩

/-- `SourceLoc::default`: the all-ones bit pattern `!0` on `u32`. -/
def SourceLoc.default : SourceLoc :=
  ⟨4294967295⟩

/-- `SourceLoc::is_default`: compares against the default location. -/
def SourceLoc.is_default (s : SourceLoc) : Bool :=
  s.bits == SourceLoc.default.bits

/-- One lowercase hexadecimal digit character, as produced by Rust's `{:x}`. -/
def hexChar (n : Nat) : Char :=
  if n < 10 then Char.ofNat (48 + n) else Char.ofNat (87 + n)

/-- Most-significant-first hex digits of `n`; `fuel` bounds the recursion
(8 digits suffice for a `u32`). -/
def hexDigitsAux : Nat → Nat → List Char
  | 0, _ => []
  | fuel + 1, n => if n = 0 then [] else hexDigitsAux fuel (n / 16) ++ [hexChar (n % 16)]

/-- Rust's `{:04x}`-style formatting: lowercase hex, zero-padded on the left to a
minimum of `width` digits (wider when needed). -/
def lowerHexMinWidth (width n : Nat) : String :=
  let ds : List Char := if n = 0 then [Char.ofNat 48] else hexDigitsAux 8 n
  String.mk (List.replicate (width - ds.length) (Char.ofNat 48) ++ ds)

/-- The `Display` impl for `SourceLoc`: `"0x-"` when default, else `0x{:04x}`. -/
def SourceLoc.display (s : SourceLoc) : String :=
  if s.is_default then "0x-" else "0x" ++ lowerHexMinWidth 4 s.bits

/-! ## VMOffsets (src/lib/compiler/src/vm.rs)

All `u32` quantities are `Nat`s; `u32::checked_add`/`checked_mul` return
`Option Nat`, and a `.unwrap()` panic is `none` propagated through `Option.bind`.
The `u8`-valued record-size helpers wrap modulo `256` as release-mode `u8`
arithmetic does. -/

/-- `u32::checked_add`: `some` exactly when the sum fits in a `u32`. -/
def checked_add (a b : Nat) : Option Nat :=
  if a + b < 4294967296 then some (a + b) else none

/-- `u32::checked_mul`: `some` exactly when the product fits in a `u32`. -/
def checked_mul (a b : Nat) : Option Nat :=
  if a * b < 4294967296 then some (a * b) else none

/-- `align`: round `offset` up to a multiple of `width`.  The addition
`offset + (width - 1)` is an ordinary unchecked `u32` addition, so in release
mode it wraps modulo `2^32`; the division and multiplication cannot wrap. -/
def align (offset width : Nat) : Nat :=
  (offset + (width - 1)) % 4294967296 / width * width

/-- Exact-arithmetic counterpart of `align`, with no `u32` wrap-around. -/
def align_x (offset width : Nat) : Nat :=
  (offset + (width - 1)) / width * width

/-- `VMBuiltinFunctionIndex::builtin_functions_total_number()`. -/
def builtin_functions_total_number : Nat := 13

/-- `struct VMOffsets`: pointer size (`u8`) and the module's entity counts
(`u32`). -/
structure VMOffsets where
  pointer_size : Nat
  num_signature_ids : Nat
  num_imported_functions : Nat
  num_imported_tables : Nat
  num_imported_memories : Nat
  num_imported_globals : Nat
  num_defined_tables : Nat
  num_defined_memories : Nat
  num_defined_globals : Nat
  deriving DecidableEq, Repr

/-- `size_of_vmfunction_import`: `2 * pointer_size` in `u8` arithmetic. -/
def VMOffsets.size_of_vmfunction_import (vo : VMOffsets) : Nat :=
  2 * vo.pointer_size % 256

/-- `size_of_vmtable_import`: `2 * pointer_size` in `u8` arithmetic. -/
def VMOffsets.size_of_vmtable_import (vo : VMOffsets) : Nat :=
  2 * vo.pointer_size % 256

/-- `size_of_vmtable_definition`: `2 * pointer_size` in `u8` arithmetic. -/
def VMOffsets.size_of_vmtable_definition (vo : VMOffsets) : Nat :=
  2 * vo.pointer_size % 256

/-- `size_of_vmmemory_import`: `2 * pointer_size` in `u8` arithmetic. -/
def VMOffsets.size_of_vmmemory_import (vo : VMOffsets) : Nat :=
  2 * vo.pointer_size % 256

/-- `size_of_vmmemory_definition`: `2 * pointer_size` in `u8` arithmetic. -/
def VMOffsets.size_of_vmmemory_definition (vo : VMOffsets) : Nat :=
  2 * vo.pointer_size % 256

/-- `size_of_vmglobal_import`: `1 * pointer_size` in `u8` arithmetic. -/
def VMOffsets.size_of_vmglobal_import (vo : VMOffsets) : Nat :=
  1 * vo.pointer_size % 256

/-- `size_of_vmglobal_definition`: 16 bytes, the size of a V128. -/
def VMOffsets.size_of_vmglobal_definition (_vo : VMOffsets) : Nat := 16

/-- `size_of_vmshared_signature_index`: 4 bytes. -/
def VMOffsets.size_of_vmshared_signature_index (_vo : VMOffsets) : Nat := 4

/-- `vmctx_signature_ids_begin`: the signature-ids array starts at offset 0. -/
def VMOffsets.vmctx_signature_ids_begin (_vo : VMOffsets) : Nat := 0

/-- `vmctx_imported_functions_begin`, with checked arithmetic. -/
def VMOffsets.vmctx_imported_functions_begin (vo : VMOffsets) : Option Nat :=
  (checked_mul vo.num_signature_ids vo.size_of_vmshared_signature_index).bind fun m =>
    checked_add vo.vmctx_signature_ids_begin m

/-- `vmctx_imported_tables_begin`, with checked arithmetic. -/
def VMOffsets.vmctx_imported_tables_begin (vo : VMOffsets) : Option Nat :=
  vo.vmctx_imported_functions_begin.bind fun b =>
    (checked_mul vo.num_imported_functions vo.size_of_vmfunction_import).bind fun m =>
      checked_add b m

/-- `vmctx_imported_memories_begin`, with checked arithmetic. -/
def VMOffsets.vmctx_imported_memories_begin (vo : VMOffsets) : Option Nat :=
  vo.vmctx_imported_tables_begin.bind fun b =>
    (checked_mul vo.num_imported_tables vo.size_of_vmtable_import).bind fun m =>
      checked_add b m

/-- `vmctx_imported_globals_begin`, with checked arithmetic. -/
def VMOffsets.vmctx_imported_globals_begin (vo : VMOffsets) : Option Nat :=
  vo.vmctx_imported_memories_begin.bind fun b =>
    (checked_mul vo.num_imported_memories vo.size_of_vmmemory_import).bind fun m =>
      checked_add b m

/-- `vmctx_tables_begin`, with checked arithmetic. -/
def VMOffsets.vmctx_tables_begin (vo : VMOffsets) : Option Nat :=
  vo.vmctx_imported_globals_begin.bind fun b =>
    (checked_mul vo.num_imported_globals vo.size_of_vmglobal_import).bind fun m =>
      checked_add b m

/-- `vmctx_memories_begin`, with checked arithmetic. -/
def VMOffsets.vmctx_memories_begin (vo : VMOffsets) : Option Nat :=
  vo.vmctx_tables_begin.bind fun b =>
    (checked_mul vo.num_defined_tables vo.size_of_vmtable_definition).bind fun m =>
      checked_add b m

/-- `vmctx_globals_begin`: the checked offset chain followed by the (wrapping)
`align(offset, 16)`. -/
def VMOffsets.vmctx_globals_begin (vo : VMOffsets) : Option Nat :=
  vo.vmctx_memories_begin.bind fun b =>
    (checked_mul vo.num_defined_memories vo.size_of_vmmemory_definition).bind fun m =>
      (checked_add b m).bind fun offset => some (align offset 16)

/-- `vmctx_builtin_functions_begin`, with checked arithmetic. -/
def VMOffsets.vmctx_builtin_functions_begin (vo : VMOffsets) : Option Nat :=
  vo.vmctx_globals_begin.bind fun b =>
    (checked_mul vo.num_defined_globals vo.size_of_vmglobal_definition).bind fun m =>
      checked_add b m

/-- `size_of_vmctx`, with checked arithmetic. -/
def VMOffsets.size_of_vmctx (vo : VMOffsets) : Option Nat :=
  vo.vmctx_builtin_functions_begin.bind fun b =>
    (checked_mul builtin_functions_total_number vo.pointer_size).bind fun m =>
      checked_add b m

/-- `vmctx_vmshared_signature_id(index)`: `assert_lt!(index, num_signature_ids)`
then the checked offset. -/
def VMOffsets.vmctx_vmshared_signature_id (vo : VMOffsets) (index : Nat) : Option Nat :=
  if index < vo.num_signature_ids then
    (checked_mul index vo.size_of_vmshared_signature_index).bind fun m =>
      checked_add vo.vmctx_signature_ids_begin m
  else none

/-- `vmctx_vmfunction_import(index)`. -/
def VMOffsets.vmctx_vmfunction_import (vo : VMOffsets) (index : Nat) : Option Nat :=
  if index < vo.num_imported_functions then
    vo.vmctx_imported_functions_begin.bind fun b =>
      (checked_mul index vo.size_of_vmfunction_import).bind fun m =>
        checked_add b m
  else none

/-- `vmctx_vmtable_import(index)`. -/
def VMOffsets.vmctx_vmtable_import (vo : VMOffsets) (index : Nat) : Option Nat :=
  if index < vo.num_imported_tables then
    vo.vmctx_imported_tables_begin.bind fun b =>
      (checked_mul index vo.size_of_vmtable_import).bind fun m =>
        checked_add b m
  else none

/-- `vmctx_vmmemory_import(index)`. -/
def VMOffsets.vmctx_vmmemory_import (vo : VMOffsets) (index : Nat) : Option Nat :=
  if index < vo.num_imported_memories then
    vo.vmctx_imported_memories_begin.bind fun b =>
      (checked_mul index vo.size_of_vmmemory_import).bind fun m =>
        checked_add b m
  else none

/-- `vmctx_vmglobal_import(index)`. -/
def VMOffsets.vmctx_vmglobal_import (vo : VMOffsets) (index : Nat) : Option Nat :=
  if index < vo.num_imported_globals then
    vo.vmctx_imported_globals_begin.bind fun b =>
      (checked_mul index vo.size_of_vmglobal_import).bind fun m =>
        checked_add b m
  else none

/-- `vmctx_vmtable_definition(index)`. -/
def VMOffsets.vmctx_vmtable_definition (vo : VMOffsets) (index : Nat) : Option Nat :=
  if index < vo.num_defined_tables then
    vo.vmctx_tables_begin.bind fun b =>
      (checked_mul index vo.size_of_vmtable_definition).bind fun m =>
        checked_add b m
  else none

/-- `vmctx_vmmemory_definition(index)`. -/
def VMOffsets.vmctx_vmmemory_definition (vo : VMOffsets) (index : Nat) : Option Nat :=
  if index < vo.num_defined_memories then
    vo.vmctx_memories_begin.bind fun b =>
      (checked_mul index vo.size_of_vmmemory_definition).bind fun m =>
        checked_add b m
  else none

/-- `vmctx_vmglobal_definition(index)`. -/
def VMOffsets.vmctx_vmglobal_definition (vo : VMOffsets) (index : Nat) : Option Nat :=
  if index < vo.num_defined_globals then
    vo.vmctx_globals_begin.bind fun b =>
      (checked_mul index vo.size_of_vmglobal_definition).bind fun m =>
        checked_add b m
  else none

/-- `vmctx_builtin_function(index)`: the index is a `VMBuiltinFunctionIndex`
(one of the thirteen constructors, so `index < 13` by construction); the
function itself performs no range assertion. -/
def VMOffsets.vmctx_builtin_function (vo : VMOffsets) (index : Nat) : Option Nat :=
  vo.vmctx_builtin_functions_begin.bind fun b =>
    (checked_mul index vo.pointer_size).bind fun m =>
      checked_add b m

/-! Exact-arithmetic (unbounded `Nat`) counterparts of the `VMContext` offset
chain, used to express silent wrap-around and in-bounds facts. -/

/-- Exact value of `vmctx_imported_functions_begin`. -/
def VMOffsets.vmctx_imported_functions_begin_x (vo : VMOffsets) : Nat :=
  vo.vmctx_signature_ids_begin + vo.num_signature_ids * vo.size_of_vmshared_signature_index

/-- Exact value of `vmctx_imported_tables_begin`. -/
def VMOffsets.vmctx_imported_tables_begin_x (vo : VMOffsets) : Nat :=
  vo.vmctx_imported_functions_begin_x + vo.num_imported_functions * vo.size_of_vmfunction_import

/-- Exact value of `vmctx_imported_memories_begin`. -/
def VMOffsets.vmctx_imported_memories_begin_x (vo : VMOffsets) : Nat :=
  vo.vmctx_imported_tables_begin_x + vo.num_imported_tables * vo.size_of_vmtable_import

/-- Exact value of `vmctx_imported_globals_begin`. -/
def VMOffsets.vmctx_imported_globals_begin_x (vo : VMOffsets) : Nat :=
  vo.vmctx_imported_memories_begin_x + vo.num_imported_memories * vo.size_of_vmmemory_import

/-- Exact value of `vmctx_tables_begin`. -/
def VMOffsets.vmctx_tables_begin_x (vo : VMOffsets) : Nat :=
  vo.vmctx_imported_globals_begin_x + vo.num_imported_globals * vo.size_of_vmglobal_import

/-- Exact value of `vmctx_memories_begin`. -/
def VMOffsets.vmctx_memories_begin_x (vo : VMOffsets) : Nat :=
  vo.vmctx_tables_begin_x + vo.num_defined_tables * vo.size_of_vmtable_definition

/-- Exact value of the unaligned offset fed to `align` in `vmctx_globals_begin`. -/
def VMOffsets.vmctx_globals_unaligned_x (vo : VMOffsets) : Nat :=
  vo.vmctx_memories_begin_x + vo.num_defined_memories * vo.size_of_vmmemory_definition

/-- Exact value of `vmctx_globals_begin`. -/
def VMOffsets.vmctx_globals_begin_x (vo : VMOffsets) : Nat :=
  align_x vo.vmctx_globals_unaligned_x 16

/-- Exact value of `vmctx_builtin_functions_begin`. -/
def VMOffsets.vmctx_builtin_functions_begin_x (vo : VMOffsets) : Nat :=
  vo.vmctx_globals_begin_x + vo.num_defined_globals * vo.size_of_vmglobal_definition

/-- Exact value of `size_of_vmctx`. -/
def VMOffsets.size_of_vmctx_x (vo : VMOffsets) : Nat :=
  vo.vmctx_builtin_functions_begin_x + builtin_functions_total_number * vo.pointer_size

/-- All `vmctx_vm*` accessors succeed and land inside `[0, size_of_vmctx)` for
in-range indices, and the globals region begins 16-byte aligned. -/
def OffsetsInRange (vo : VMOffsets) : Prop :=
  ∃ S, vo.size_of_vmctx = some S ∧
    (∀ i, i < vo.num_signature_ids →
      ∃ v, vo.vmctx_vmshared_signature_id i = some v ∧ v < S) ∧
    (∀ i, i < vo.num_imported_functions →
      ∃ v, vo.vmctx_vmfunction_import i = some v ∧ v < S) ∧
    (∀ i, i < vo.num_imported_tables →
      ∃ v, vo.vmctx_vmtable_import i = some v ∧ v < S) ∧
    (∀ i, i < vo.num_imported_memories →
      ∃ v, vo.vmctx_vmmemory_import i = some v ∧ v < S) ∧
    (∀ i, i < vo.num_imported_globals →
      ∃ v, vo.vmctx_vmglobal_import i = some v ∧ v < S) ∧
    (∀ i, i < vo.num_defined_tables →
      ∃ v, vo.vmctx_vmtable_definition i = some v ∧ v < S) ∧
    (∀ i, i < vo.num_defined_memories →
      ∃ v, vo.vmctx_vmmemory_definition i = some v ∧ v < S) ∧
    (∀ i, i < vo.num_defined_globals →
      ∃ v, vo.vmctx_vmglobal_definition i = some v ∧ v < S) ∧
    (∀ i, i < builtin_functions_total_number →
      ∃ v, vo.vmctx_builtin_function i = some v ∧ v < S) ∧
    (∃ g, vo.vmctx_globals_begin = some g ∧ g % 16 = 0)

/-! ## Tunables (src/lib/compiler/src/tunables.rs) -/

/-- Pointer widths of the `target-lexicon` crate used by `Tunables::for_target`. -/
inductive PointerWidth where
  | U16
  | U32
  | U64
  deriving DecidableEq, Repr

/-- Operating systems, reduced to the distinction `Tunables::for_target` makes. -/
inductive OperatingSystem where
  | Windows
  | Other
  deriving DecidableEq, Repr

/-- The part of a `target_lexicon::Triple` that `Tunables::for_target` reads;
`pointer_width()` returns a `Result`, hence the `Option`. -/
structure Triple where
  pointer_width : Option PointerWidth
  operating_system : OperatingSystem
  deriving DecidableEq, Repr

/-- Tunable parameters for WebAssembly compilation (`struct Tunables`). -/
structure Tunables where
  static_memory_bound : Nat
  static_memory_offset_guard_size : Nat
  dynamic_memory_offset_guard_size : Nat
  deriving DecidableEq, Repr

/-- `Tunables::for_target`; `none` models the panic of
`triple.pointer_width().unwrap()` on an unknown pointer width. -/
def Tunables.for_target (triple : Triple) : Option Tunables :=
  match triple.pointer_width with
  | none => none
  | some pw =>
    let bg : Nat × Nat :=
      match pw with
      | .U16 => (0x400, 0x1000)
      | .U32 => (0x4000, 0x10000)
      | .U64 => (0x10000, 0x80000000)
    let dynamic_memory_offset_guard_size : Nat := 0x10000
    let bg : Nat × Nat :=
      match triple.operating_system with
      | .Windows => (min bg.1 0x100, min bg.2 0x10000)
      | _ => bg
    some { static_memory_bound := bg.1,
           static_memory_offset_guard_size := bg.2,
           dynamic_memory_offset_guard_size := dynamic_memory_offset_guard_size }

/-! ## Translator environment (src/lib/compiler/src/translator/environ.rs)

The `ModuleEnvironment` `declare_*` methods take `&mut self` and return
`WasmResult<()>`; they are embedded as state-passing functions returning
`Except WasmError Unit × ModuleEnvironment`. -/

/-- Modelled from the spec: `WasmError` lives in `translator/errors.rs`, which
is not part of this source tree; the spec's error table lists
`InvalidWebAssembly { message, offset }` and `Unsupported(msg)`. -/
inductive WasmError where
  | InvalidWebAssembly (message : String) (offset : Nat)
  | Unsupported (message : String)
  deriving DecidableEq, Repr

/-- Modelled from the spec: `TablePlan::for_table` lives in `module.rs`, which
is not part of this source tree; a plan pairs the declared table type with the
tunables-derived style, and only the pairing matters for these claims. -/
structure TablePlan where
  table : TableType
  deriving DecidableEq, Repr

/-- `TablePlan::for_table`. -/
def TablePlan.for_table (table : TableType) (_tunables : Tunables) : TablePlan :=
  ⟨table⟩

/-- Modelled from the spec: `MemoryPlan::for_memory` lives in `module.rs`, which
is not part of this source tree; a plan pairs the declared memory type with the
tunables-derived style, and only the pairing matters for these claims. -/
structure MemoryPlan where
  memory : MemoryType
  deriving DecidableEq, Repr

/-- `MemoryPlan::for_memory`. -/
def MemoryPlan.for_memory (memory : MemoryType) (_tunables : Tunables) : MemoryPlan :=
  ⟨memory⟩

/-- `enum ImportIndex`: the typed index recorded for each import. -/
inductive ImportIndex where
  | Function (i : Nat)
  | Table (i : Nat)
  | Memory (i : Nat)
  | Global (i : Nat)
  deriving DecidableEq, Repr

/-- The fields of `ModuleLocal` that the translator writes and `VMOffsets::new`
reads (`module.rs` is not part of this source tree; the fields and their
maintenance are visible in `environ.rs` and `vm.rs`). -/
structure ModuleLocal where
  signatures : List FuncType
  functions : List Nat
  table_plans : List TablePlan
  memory_plans : List MemoryPlan
  globals : List GlobalType
  num_imported_funcs : Nat
  num_imported_tables : Nat
  num_imported_memories : Nat
  num_imported_globals : Nat
  deriving DecidableEq, Repr

/-- The parts of `Module` the declaration methods touch: the local index
spaces and the `imports` map, keyed by `(module, field, import counter)`. -/
structure Module where
  localData : ModuleLocal
  importMap : List ((String × String × Nat) × ImportIndex)
  deriving DecidableEq, Repr

/-- `struct ModuleEnvironment`: the module under construction, the tunables of
the `ModuleTranslation` result, and the running `imports` counter. -/
structure ModuleEnvironment where
  module : Module
  tunables : Tunables
  importCounter : Nat
  deriving DecidableEq, Repr

/-- `ModuleEnvironment::new`: empty module, zero counters. -/
def ModuleEnvironment.new (tunables : Tunables) : ModuleEnvironment :=
  { module := { localData := ⟨[], [], [], [], [], 0, 0, 0, 0⟩, importMap := [] },
    tunables := tunables,
    importCounter := 0 }

/-- `declare_import`: record `((module, field, imports), import)` in the map
of imports.  Always succeeds. -/
def ModuleEnvironment.declare_import (env : ModuleEnvironment) (imp : ImportIndex)
    (module field : String) : ModuleEnvironment :=
  { env with module := { env.module with
      importMap := env.module.importMap ++ [((module, field, env.importCounter), imp)] } }

/-- `declare_signature`: push the signature (no deduplication, TODO in source). -/
def ModuleEnvironment.declare_signature (env : ModuleEnvironment) (sig : FuncType) :
    Except WasmError Unit × ModuleEnvironment :=
  (.ok (), { env with module := { env.module with localData := { env.module.localData with
      signatures := env.module.localData.signatures ++ [sig] } } })

/-- `declare_func_import`: record the import, push the signature index, bump
`num_imported_funcs` and the import counter.  (The `debug_assert_eq!` boundary
check is compiled out in release builds and is proved as an invariant below.) -/
def ModuleEnvironment.declare_func_import (env : ModuleEnvironment) (sig_index : Nat)
    (module field : String) : Except WasmError Unit × ModuleEnvironment :=
  let env1 := env.declare_import
    (ImportIndex.Function env.module.localData.num_imported_funcs) module field
  (.ok (), { env1 with
    module := { env1.module with
      localData := { env1.module.localData with
        functions := env1.module.localData.functions ++ [sig_index],
        num_imported_funcs := env1.module.localData.num_imported_funcs + 1 } },
    importCounter := env1.importCounter + 1 })

/-- `declare_table_import`. -/
def ModuleEnvironment.declare_table_import (env : ModuleEnvironment) (table : TableType)
    (module field : String) : Except WasmError Unit × ModuleEnvironment :=
  let env1 := env.declare_import
    (ImportIndex.Table env.module.localData.num_imported_tables) module field
  let plan := TablePlan.for_table table env1.tunables
  (.ok (), { env1 with
    module := { env1.module with
      localData := { env1.module.localData with
        table_plans := env1.module.localData.table_plans ++ [plan],
        num_imported_tables := env1.module.localData.num_imported_tables + 1 } },
    importCounter := env1.importCounter + 1 })

/-- `declare_memory_import`.  Note: unlike `declare_memory`, it does not reject
shared memories. -/
def ModuleEnvironment.declare_memory_import (env : ModuleEnvironment) (memory : MemoryType)
    (module field : String) : Except WasmError Unit × ModuleEnvironment :=
  let env1 := env.declare_import
    (ImportIndex.Memory env.module.localData.num_imported_memories) module field
  let plan := MemoryPlan.for_memory memory env1.tunables
  (.ok (), { env1 with
    module := { env1.module with
      localData := { env1.module.localData with
        memory_plans := env1.module.localData.memory_plans ++ [plan],
        num_imported_memories := env1.module.localData.num_imported_memories + 1 } },
    importCounter := env1.importCounter + 1 })

/-- `declare_global_import`. -/
def ModuleEnvironment.declare_global_import (env : ModuleEnvironment) (global : GlobalType)
    (module field : String) : Except WasmError Unit × ModuleEnvironment :=
  let env1 := env.declare_import
    (ImportIndex.Global env.module.localData.num_imported_globals) module field
  (.ok (), { env1 with
    module := { env1.module with
      localData := { env1.module.localData with
        globals := env1.module.localData.globals ++ [global],
        num_imported_globals := env1.module.localData.num_imported_globals + 1 } },
    importCounter := env1.importCounter + 1 })

/-- `declare_func_type`: push the signature index of a locally defined function. -/
def ModuleEnvironment.declare_func_type (env : ModuleEnvironment) (sig_index : Nat) :
    Except WasmError Unit × ModuleEnvironment :=
  (.ok (), { env with module := { env.module with localData := { env.module.localData with
      functions := env.module.localData.functions ++ [sig_index] } } })

/-- `declare_table`: push the plan for a locally defined table. -/
def ModuleEnvironment.declare_table (env : ModuleEnvironment) (table : TableType) :
    Except WasmError Unit × ModuleEnvironment :=
  let plan := TablePlan.for_table table env.tunables
  (.ok (), { env with module := { env.module with localData := { env.module.localData with
      table_plans := env.module.localData.table_plans ++ [plan] } } })

/-- `declare_memory`: reject shared memories with `Unsupported`, otherwise push
the plan for a locally defined memory. -/
def ModuleEnvironment.declare_memory (env : ModuleEnvironment) (memory : MemoryType) :
    Except WasmError Unit × ModuleEnvironment :=
  if memory.shared then
    (.error (WasmError.Unsupported "shared memories are not supported yet"), env)
  else
    let plan := MemoryPlan.for_memory memory env.tunables
    (.ok (), { env with module := { env.module with localData := { env.module.localData with
        memory_plans := env.module.localData.memory_plans ++ [plan] } } })

/-- `declare_global`: push a locally defined global. -/
def ModuleEnvironment.declare_global (env : ModuleEnvironment) (global : GlobalType) :
    Except WasmError Unit × ModuleEnvironment :=
  (.ok (), { env with module := { env.module with localData := { env.module.localData with
      globals := env.module.localData.globals ++ [global] } } })

/-- One `declare_*` call of the translation driver, with its arguments. -/
inductive DeclEvent where
  | signature (sig : FuncType)
  | funcImport (sig_index : Nat) (module field : String)
  | tableImport (table : TableType) (module field : String)
  | memoryImport (memory : MemoryType) (module field : String)
  | globalImport (global : GlobalType) (module field : String)
  | funcType (sig_index : Nat)
  | table (table : TableType)
  | memory (memory : MemoryType)
  | global (global : GlobalType)
  deriving DecidableEq, Repr

/-- Dispatch one declaration event to the corresponding `declare_*` method. -/
def declStep (env : ModuleEnvironment) : DeclEvent → Except WasmError Unit × ModuleEnvironment
  | .signature sig => env.declare_signature sig
  | .funcImport s m f => env.declare_func_import s m f
  | .tableImport t m f => env.declare_table_import t m f
  | .memoryImport mem m f => env.declare_memory_import mem m f
  | .globalImport g m f => env.declare_global_import g m f
  | .funcType s => env.declare_func_type s
  | .table t => env.declare_table t
  | .memory mem => env.declare_memory mem
  | .global g => env.declare_global g

/-- Run a sequence of declaration calls, stopping at the first error as the
`?` operator in `translate_module` does. -/
def runEvents (env : ModuleEnvironment) : List DeclEvent → Except WasmError ModuleEnvironment
  | [] => .ok env
  | e :: es =>
    match declStep env e with
    | (.ok _, env') => runEvents env' es
    | (.error err, _) => .error err

/-- The signature index pushed by a function-import event, if any. -/
def funcImportSig : DeclEvent → Option Nat
  | .funcImport s _ _ => some s
  | _ => none

/-- The signature index pushed by a local function declaration, if any. -/
def funcLocalSig : DeclEvent → Option Nat
  | .funcType s => some s
  | _ => none

/-- The plan pushed by a table-import event, if any. -/
def tableImportPlan (tun : Tunables) : DeclEvent → Option TablePlan
  | .tableImport t _ _ => some (TablePlan.for_table t tun)
  | _ => none

/-- The plan pushed by a local table declaration, if any. -/
def tableLocalPlan (tun : Tunables) : DeclEvent → Option TablePlan
  | .table t => some (TablePlan.for_table t tun)
  | _ => none

/-- The plan pushed by a memory-import event, if any. -/
def memoryImportPlan (tun : Tunables) : DeclEvent → Option MemoryPlan
  | .memoryImport m _ _ => some (MemoryPlan.for_memory m tun)
  | _ => none

/-- The plan pushed by a local (non-shared) memory declaration, if any. -/
def memoryLocalPlan (tun : Tunables) : DeclEvent → Option MemoryPlan
  | .memory m => some (MemoryPlan.for_memory m tun)
  | _ => none

/-- The global pushed by a global-import event, if any. -/
def globalImportTy : DeclEvent → Option GlobalType
  | .globalImport g _ _ => some g
  | _ => none

/-- The global pushed by a local global declaration, if any. -/
def globalLocalTy : DeclEvent → Option GlobalType
  | .global g => some g
  | _ => none

/-- Is the event an import declaration of the given kind? -/
def isFuncImport : DeclEvent → Bool
  | .funcImport _ _ _ => true
  | _ => false

def isFuncLocal : DeclEvent → Bool
  | .funcType _ => true
  | _ => false

def isTableImport : DeclEvent → Bool
  | .tableImport _ _ _ => true
  | _ => false

def isTableLocal : DeclEvent → Bool
  | .table _ => true
  | _ => false

def isMemoryImport : DeclEvent → Bool
  | .memoryImport _ _ _ => true
  | _ => false

def isMemoryLocal : DeclEvent → Bool
  | .memory _ => true
  | _ => false

def isGlobalImport : DeclEvent → Bool
  | .globalImport _ _ _ => true
  | _ => false

def isGlobalLocal : DeclEvent → Bool
  | .global _ => true
  | _ => false

/-- `importsFirst imp loc seenLocal evs` is true when no `imp` event follows a
`loc` event (with `seenLocal` recording whether a `loc` event was already
seen). -/
def importsFirst (imp loc : DeclEvent → Bool) : Bool → List DeclEvent → Bool
  | _, [] => true
  | seenLocal, e :: es =>
    if imp e && seenLocal then false
    else importsFirst imp loc (seenLocal || loc e) es

/-- Within the entity class given by `imp`/`loc`, every import declaration
comes before every local definition. -/
def importsBeforeLocals (imp loc : DeclEvent → Bool) (evs : List DeclEvent) : Bool :=
  importsFirst imp loc false evs

/-- `cast_to_u32`: `u32::try_from(sz)` followed by `.unwrap()`/`.expect(...)`;
`none` models the panic on overflow. -/
def cast_to_u32 (sz : Nat) : Option Nat :=
  if sz < 4294967296 then some sz else none

/-- `VMOffsets::new`: the counts come from the module.  The `defined` counts are
the lengths of `table_plans`, `memory_plans` and `globals`, containers which
also hold the imported entries. -/
def VMOffsets.new (pointer_size : Nat) (module : ModuleLocal) : Option VMOffsets := do
  let num_signature_ids ← cast_to_u32 module.signatures.length
  let num_imported_functions ← cast_to_u32 module.num_imported_funcs
  let num_imported_tables ← cast_to_u32 module.num_imported_tables
  let num_imported_memories ← cast_to_u32 module.num_imported_memories
  let num_imported_globals ← cast_to_u32 module.num_imported_globals
  let num_defined_tables ← cast_to_u32 module.table_plans.length
  let num_defined_memories ← cast_to_u32 module.memory_plans.length
  let num_defined_globals ← cast_to_u32 module.globals.length
  pure ⟨pointer_size, num_signature_ids, num_imported_functions, num_imported_tables,
    num_imported_memories, num_imported_globals, num_defined_tables,
    num_defined_memories, num_defined_globals⟩

/-! ## Artifact instantiation (src/lib/engine/src/artifact.rs) -/

/-- Modelled from the spec: `LinkError` (the engine error module is not part of
this source tree) has kinds Import, Resource and Signature. -/
inductive LinkError where
  | Import (msg : String)
  | Resource (msg : String)
  | Signature (msg : String)
  deriving DecidableEq, Repr

/-- Modelled from the spec: a trap reason raised during initialization (the
runtime `Trap` type is not part of this source tree). -/
structure Trap where
  reason : String
  deriving DecidableEq, Repr

/-- Modelled from the spec: `RuntimeError` has kind Trap(reason) or
User(payload). -/
inductive RuntimeError where
  | trap (t : Trap)
  | user (payload : String)
  deriving DecidableEq, Repr

/-- `RuntimeError::from_trap`. -/
def RuntimeError.from_trap (t : Trap) : RuntimeError :=
  .trap t

/-- Modelled from the spec: `InstantiationError` is either `Link(LinkError)` or
`Start(RuntimeError)`. -/
inductive InstantiationError where
  | Link (e : LinkError)
  | Start (e : RuntimeError)
  deriving DecidableEq, Repr

/-- The steps of `Artifact::instantiate`, in source order. -/
inductive StepTag where
  | preinstantiateStep
  | resolveImportsStep
  | createMemoriesStep
  | createTablesStep
  | createGlobalsStep
  | registerFrameInfoStep
  | buildHandleStep
  deriving DecidableEq, Repr

/-- The outcomes of the engine-side operations that `Artifact::instantiate` and
`finish_instantiation` invoke (`resolve_imports`, `Tunables::create_*`,
`InstanceHandle::new`, `InstanceHandle::finish_instantiation` live outside this
source tree); successful payloads are opaque `Nat` handles. -/
structure ArtifactModel where
  preinstantiate : Except InstantiationError Unit
  resolve_imports : Except LinkError Nat
  create_memories : Except LinkError Nat
  create_tables : Except LinkError Nat
  create_globals : Except LinkError Nat
  instance_handle_new : Except Trap Nat
  handle_finish_instantiation : Except Trap Unit
  deriving Repr

/-- `Artifact::instantiate`, with an explicit trace of the steps performed:
preinstantiate, resolve imports (`map_err(InstantiationError::Link)`), create
memories/tables/globals (each `map_err(InstantiationError::Link)`),
`register_frame_info`, then `InstanceHandle::new`
(`map_err(|trap| InstantiationError::Start(RuntimeError::from_trap(trap)))`). -/
def ArtifactModel.instantiate (a : ArtifactModel) :
    List StepTag × Except InstantiationError Nat :=
  match a.preinstantiate with
  | .error e => ([.preinstantiateStep], .error e)
  | .ok _ =>
    match a.resolve_imports with
    | .error e => ([.preinstantiateStep, .resolveImportsStep], .error (.Link e))
    | .ok _imports =>
      match a.create_memories with
      | .error e =>
        ([.preinstantiateStep, .resolveImportsStep, .createMemoriesStep], .error (.Link e))
      | .ok _mems =>
        match a.create_tables with
        | .error e =>
          ([.preinstantiateStep, .resolveImportsStep, .createMemoriesStep,
            .createTablesStep], .error (.Link e))
        | .ok _tabs =>
          match a.create_globals with
          | .error e =>
            ([.preinstantiateStep, .resolveImportsStep, .createMemoriesStep,
              .createTablesStep, .createGlobalsStep], .error (.Link e))
          | .ok _globs =>
            match a.instance_handle_new with
            | .error trap =>
              ([.preinstantiateStep, .resolveImportsStep, .createMemoriesStep,
                .createTablesStep, .createGlobalsStep, .registerFrameInfoStep,
                .buildHandleStep],
               .error (.Start (RuntimeError.from_trap trap)))
            | .ok h =>
              ([.preinstantiateStep, .resolveImportsStep, .createMemoriesStep,
                .createTablesStep, .createGlobalsStep, .registerFrameInfoStep,
                .buildHandleStep], .ok h)

/-- `Artifact::finish_instantiation`: runs the initializers on the handle and
wraps any trap as `InstantiationError::Start(RuntimeError::from_trap(..))`. -/
def ArtifactModel.finish_instantiation (a : ArtifactModel) :
    Except InstantiationError Unit :=
  match a.handle_finish_instantiation with
  | .error trap => .error (.Start (RuntimeError.from_trap trap))
  | .ok _ => .ok ()

/-! ## Native function wrapper (src/lib/wasm-common/src/native.rs) -/

/-- The Rust types with a `NativeWasmType` impl (the four `wasm_native_type!`
invocations). -/
inductive NativeWasmTy where
  | i32
  | i64
  | f32
  | f64
  deriving DecidableEq, Repr

/-- `NativeWasmType::WASM_TYPE`. -/
def NativeWasmTy.wasmType : NativeWasmTy → Ty
  | .i32 => .I32
  | .i64 => .I64
  | .f32 => .F32
  | .f64 => .F64

/-- `WasmTypeList::wasm_types()`: one instance per arity, produced by the six
`impl_traits!` invocations `S0`..`S5`; `none` when no instance exists (the
source stops at arity 5). -/
def wasm_types : List NativeWasmTy → Option (List Ty)
  | [] => some []
  | [a1] => some [a1.wasmType]
  | [a1, a2] => some [a1.wasmType, a2.wasmType]
  | [a1, a2, a3] => some [a1.wasmType, a2.wasmType, a3.wasmType]
  | [a1, a2, a3, a4] => some [a1.wasmType, a2.wasmType, a3.wasmType, a4.wasmType]
  | [a1, a2, a3, a4, a5] =>
    some [a1.wasmType, a2.wasmType, a3.wasmType, a4.wasmType, a5.wasmType]
  | _ => none

/-- `struct Func`: raw trampoline address, optional environment pointer, and
the type-level parameter/result lists tracked by the `Args`/`Rets` phantom
parameters. -/
structure Func where
  args : List NativeWasmTy
  rets : List NativeWasmTy
  env : Option Nat
  address : Nat
  deriving DecidableEq, Repr

/-- `Func::new`: wraps a host function without environment (`env = None`). -/
def Func.new (args rets : List NativeWasmTy) (address : Nat) : Func :=
  { args := args, rets := rets, env := none, address := address }

/-- `Func::new_env`: wraps a host function with an environment pointer. -/
def Func.new_env (args rets : List NativeWasmTy) (env : Nat) (address : Nat) : Func :=
  { args := args, rets := rets, env := some env, address := address }

/-- `Func::ty`: `FuncType::new(Args::wasm_types(), Rets::wasm_types())`;
`none` when either list has no `WasmTypeList` instance. -/
def Func.ty (f : Func) : Option FuncType := do
  let ps ← wasm_types f.args
  let rs ← wasm_types f.rets
  pure (FuncType.new ps rs)

end Wasmer

namespace Wasmer

/-- C9: for every `u32` value `b`, `SourceLoc::new(b).bits() == b`; the default
source location has the all-ones bit pattern `!0` and `is_default()` is true on it;
`Display` prints `"0x-"` for the default and `0x{:04x}` (minimum four lowercase hex
digits, wider when needed) otherwise. -/
theorem sourceloc_spec :
    (∀ b : Nat, b < 4294967296 → (SourceLoc.new b).bits = b) ∧
    SourceLoc.default.bits = 4294967295 ∧
    SourceLoc.is_default SourceLoc.default = true ∧
    SourceLoc.display SourceLoc.default = "0x-" ∧
    SourceLoc.display (SourceLoc.new 0) = "0x0000" ∧
    SourceLoc.display (SourceLoc.new 16) = "0x0010" ∧
    SourceLoc.display (SourceLoc.new 0xabcdef) = "0xabcdef" ∧
    (∀ s : SourceLoc, s.is_default = false →
      SourceLoc.display s = "0x" ++ lowerHexMinWidth 4 s.bits) := by
  refine ⟨fun b hb => ?_, rfl, by decide, by decide, by decide, by decide, by decide,
    fun s hs => ?_⟩
  · simp [SourceLoc.new, Nat.mod_eq_of_lt hb]
  · simp [SourceLoc.display, hs]

/-- Witness for C9: instantiates the round-trip clause at `b = 7`. -/
theorem sourceloc_spec_witness : (SourceLoc.new 7).bits = 7 :=
  sourceloc_spec.1 7 (by decide)

/-! ### VMOffsets helper lemmas -/

theorem chainStep_eq_some {p : Option Nat} {b c r : Nat} (hp : p = some b)
    (h : b + c * r < 4294967296) :
    (p.bind fun x => (checked_mul c r).bind fun m => checked_add x m) = some (b + c * r) := by
  subst hp
  have hm : c * r < 4294967296 := by omega
  simp [checked_mul, checked_add, hm, h]

theorem chainStep_some_inv {p : Option Nat} {c r w : Nat}
    (h : (p.bind fun x => (checked_mul c r).bind fun m => checked_add x m) = some w) :
    ∃ b, p = some b ∧ w = b + c * r := by
  cases p with
  | none => simp at h
  | some b =>
    refine ⟨b, rfl, ?_⟩
    by_cases hm : c * r < 4294967296
    · by_cases ha : b + c * r < 4294967296
      · simp [checked_mul, checked_add, hm, ha] at h
        omega
      · simp [checked_mul, checked_add, hm, ha] at h
    · simp [checked_mul, checked_add, hm] at h

theorem accessorStep_spec {p : Option Nat} {b i c r S : Nat} (hp : p = some b)
    (hle : b + c * r ≤ S) (hS : S < 4294967296) (hr : 1 ≤ r) (hi : i < c) :
    (if i < c then p.bind fun x => (checked_mul i r).bind fun m => checked_add x m
     else none) = some (b + i * r) ∧ b + i * r < S := by
  have h2 : (i + 1) * r ≤ c * r := Nat.mul_le_mul (Nat.succ_le_of_lt hi) (le_refl r)
  have h1 : i * r + r ≤ c * r := by
    calc i * r + r = (i + 1) * r := by ring
    _ ≤ c * r := h2
  refine ⟨?_, by omega⟩
  rw [if_pos hi]
  exact chainStep_eq_some hp (by omega)

theorem align_x_ge (o : Nat) : o ≤ align_x o 16 := by
  unfold align_x
  omega

theorem align_x_mod (o : Nat) : align_x o 16 % 16 = 0 := by
  unfold align_x
  exact Nat.mul_mod_left _ 16

theorem align_eq_of_lt {o : Nat} (h : o + 15 < 4294967296) : align o 16 = align_x o 16 := by
  unfold align align_x
  rw [Nat.mod_eq_of_lt (by omega)]

theorem align_x_lt_of_lt {o S : Nat} (h : align_x o 16 ≤ S) (hS : S < 4294967296) :
    o + 15 < 4294967296 := by
  unfold align_x at h
  omega

theorem le_size_chain (vo : VMOffsets) :
    vo.vmctx_imported_functions_begin_x ≤ vo.size_of_vmctx_x ∧
    vo.vmctx_imported_tables_begin_x ≤ vo.size_of_vmctx_x ∧
    vo.vmctx_imported_memories_begin_x ≤ vo.size_of_vmctx_x ∧
    vo.vmctx_imported_globals_begin_x ≤ vo.size_of_vmctx_x ∧
    vo.vmctx_tables_begin_x ≤ vo.size_of_vmctx_x ∧
    vo.vmctx_memories_begin_x ≤ vo.size_of_vmctx_x ∧
    vo.vmctx_globals_unaligned_x ≤ vo.size_of_vmctx_x ∧
    vo.vmctx_globals_begin_x ≤ vo.size_of_vmctx_x ∧
    vo.vmctx_builtin_functions_begin_x ≤ vo.size_of_vmctx_x := by
  have hga : vo.vmctx_globals_unaligned_x ≤ vo.vmctx_globals_begin_x := align_x_ge _
  unfold VMOffsets.vmctx_globals_begin_x at *
  unfold VMOffsets.size_of_vmctx_x VMOffsets.vmctx_builtin_functions_begin_x
    VMOffsets.vmctx_globals_begin_x VMOffsets.vmctx_globals_unaligned_x
    VMOffsets.vmctx_memories_begin_x VMOffsets.vmctx_tables_begin_x
    VMOffsets.vmctx_imported_globals_begin_x VMOffsets.vmctx_imported_memories_begin_x
    VMOffsets.vmctx_imported_tables_begin_x VMOffsets.vmctx_imported_functions_begin_x at *
  omega

theorem begins_eq_x (vo : VMOffsets) (hS : vo.size_of_vmctx_x < 4294967296) :
    vo.vmctx_imported_functions_begin = some vo.vmctx_imported_functions_begin_x ∧
    vo.vmctx_imported_tables_begin = some vo.vmctx_imported_tables_begin_x ∧
    vo.vmctx_imported_memories_begin = some vo.vmctx_imported_memories_begin_x ∧
    vo.vmctx_imported_globals_begin = some vo.vmctx_imported_globals_begin_x ∧
    vo.vmctx_tables_begin = some vo.vmctx_tables_begin_x ∧
    vo.vmctx_memories_begin = some vo.vmctx_memories_begin_x ∧
    vo.vmctx_globals_begin = some vo.vmctx_globals_begin_x ∧
    vo.vmctx_builtin_functions_begin = some vo.vmctx_builtin_functions_begin_x ∧
    vo.size_of_vmctx = some vo.size_of_vmctx_x := by
  obtain ⟨l1, l2, l3, l4, l5, l6, l7, l8, l9⟩ := le_size_chain vo
  have h1 : vo.vmctx_imported_functions_begin = some vo.vmctx_imported_functions_begin_x :=
    chainStep_eq_some (p := some vo.vmctx_signature_ids_begin) rfl
      (show vo.vmctx_imported_functions_begin_x < 4294967296 by omega)
  have h2 : vo.vmctx_imported_tables_begin = some vo.vmctx_imported_tables_begin_x :=
    chainStep_eq_some h1 (show vo.vmctx_imported_tables_begin_x < 4294967296 by omega)
  have h3 : vo.vmctx_imported_memories_begin = some vo.vmctx_imported_memories_begin_x :=
    chainStep_eq_some h2 (show vo.vmctx_imported_memories_begin_x < 4294967296 by omega)
  have h4 : vo.vmctx_imported_globals_begin = some vo.vmctx_imported_globals_begin_x :=
    chainStep_eq_some h3 (show vo.vmctx_imported_globals_begin_x < 4294967296 by omega)
  have h5 : vo.vmctx_tables_begin = some vo.vmctx_tables_begin_x :=
    chainStep_eq_some h4 (show vo.vmctx_tables_begin_x < 4294967296 by omega)
  have h6 : vo.vmctx_memories_begin = some vo.vmctx_memories_begin_x :=
    chainStep_eq_some h5 (show vo.vmctx_memories_begin_x < 4294967296 by omega)
  have h15 : vo.vmctx_globals_unaligned_x + 15 < 4294967296 := align_x_lt_of_lt l8 hS
  have hu' : vo.vmctx_memories_begin_x
      + vo.num_defined_memories * vo.size_of_vmmemory_definition + 15 < 4294967296 := h15
  have h7 : vo.vmctx_globals_begin = some vo.vmctx_globals_begin_x := by
    unfold VMOffsets.vmctx_globals_begin
    rw [h6]
    have hm : vo.num_defined_memories * vo.size_of_vmmemory_definition < 4294967296 := by
      omega
    have ha : vo.vmctx_memories_begin_x
        + vo.num_defined_memories * vo.size_of_vmmemory_definition < 4294967296 := by
      omega
    simp only [Option.some_bind]
    simp [checked_mul, checked_add, hm, ha]
    rw [align_eq_of_lt (by omega)]
    rfl
  have h8 : vo.vmctx_builtin_functions_begin = some vo.vmctx_builtin_functions_begin_x :=
    chainStep_eq_some h7 (show vo.vmctx_builtin_functions_begin_x < 4294967296 by omega)
  have h9 : vo.size_of_vmctx = some vo.size_of_vmctx_x :=
    chainStep_eq_some h8 (show vo.size_of_vmctx_x < 4294967296 by omega)
  exact ⟨h1, h2, h3, h4, h5, h6, h7, h8, h9⟩

/-- C2: for every `VMOffsets` with pointer size 4 or 8 whose offset computations
do not overflow `u32` (the exact size of the `VMContext` fits in a `u32`), every
`vmctx_vm*` accessor at an in-range index returns an offset inside
`[0, size_of_vmctx)`, and `vmctx_globals_begin()` is divisible by 16. -/
theorem vmctx_accessors_in_range (vo : VMOffsets)
    (hP : vo.pointer_size = 4 ∨ vo.pointer_size = 8)
    (hS : vo.size_of_vmctx_x < 4294967296) : OffsetsInRange vo := by
  obtain ⟨l1, l2, l3, l4, l5, l6, l7, l8, l9⟩ := le_size_chain vo
  obtain ⟨h1, h2, h3, h4, h5, h6, h7, h8, h9⟩ := begins_eq_x vo hS
  have hr4 : 1 ≤ vo.size_of_vmshared_signature_index := by
    simp [VMOffsets.size_of_vmshared_signature_index]
  have hr2P : (1 : Nat) ≤ 2 * vo.pointer_size % 256 := by
    rcases hP with h | h <;> simp [h]
  have hr1P : (1 : Nat) ≤ 1 * vo.pointer_size % 256 := by
    rcases hP with h | h <;> simp [h]
  have hr16 : 1 ≤ vo.size_of_vmglobal_definition := by
    simp [VMOffsets.size_of_vmglobal_definition]
  have hrP : 1 ≤ vo.pointer_size := by rcases hP with h | h <;> omega
  refine ⟨vo.size_of_vmctx_x, h9, ?_, ?_, ?_, ?_, ?_, ?_, ?_, ?_, ?_, ?_⟩
  · intro i hi
    have hacc := accessorStep_spec (p := some vo.vmctx_signature_ids_begin) rfl
      (show vo.vmctx_signature_ids_begin +
        vo.num_signature_ids * vo.size_of_vmshared_signature_index ≤ vo.size_of_vmctx_x
        from l1) hS hr4 hi
    exact ⟨_, hacc.1, hacc.2⟩
  · intro i hi
    have hacc := accessorStep_spec h1
      (show vo.vmctx_imported_functions_begin_x +
        vo.num_imported_functions * vo.size_of_vmfunction_import ≤ vo.size_of_vmctx_x
        from l2) hS hr2P hi
    exact ⟨_, hacc.1, hacc.2⟩
  · intro i hi
    have hacc := accessorStep_spec h2
      (show vo.vmctx_imported_tables_begin_x +
        vo.num_imported_tables * vo.size_of_vmtable_import ≤ vo.size_of_vmctx_x
        from l3) hS hr2P hi
    exact ⟨_, hacc.1, hacc.2⟩
  · intro i hi
    have hacc := accessorStep_spec h3
      (show vo.vmctx_imported_memories_begin_x +
        vo.num_imported_memories * vo.size_of_vmmemory_import ≤ vo.size_of_vmctx_x
        from l4) hS hr2P hi
    exact ⟨_, hacc.1, hacc.2⟩
  · intro i hi
    have hacc := accessorStep_spec h4
      (show vo.vmctx_imported_globals_begin_x +
        vo.num_imported_globals * vo.size_of_vmglobal_import ≤ vo.size_of_vmctx_x
        from l5) hS hr1P hi
    exact ⟨_, hacc.1, hacc.2⟩
  · intro i hi
    have hacc := accessorStep_spec h5
      (show vo.vmctx_tables_begin_x +
        vo.num_defined_tables * vo.size_of_vmtable_definition ≤ vo.size_of_vmctx_x
        from l6) hS hr2P hi
    exact ⟨_, hacc.1, hacc.2⟩
  · intro i hi
    have hacc := accessorStep_spec h6
      (show vo.vmctx_memories_begin_x +
        vo.num_defined_memories * vo.size_of_vmmemory_definition ≤ vo.size_of_vmctx_x
        from l7) hS hr2P hi
    exact ⟨_, hacc.1, hacc.2⟩
  · intro i hi
    have hacc := accessorStep_spec h7
      (show vo.vmctx_globals_begin_x +
        vo.num_defined_globals * vo.size_of_vmglobal_definition ≤ vo.size_of_vmctx_x
        from l9) hS hr16 hi
    exact ⟨_, hacc.1, hacc.2⟩
  · intro i hi
    have hi' : i < 13 := hi
    have hstep : i * vo.pointer_size + vo.pointer_size ≤ 13 * vo.pointer_size := by
      have h13 : (i + 1) * vo.pointer_size ≤ 13 * vo.pointer_size :=
        Nat.mul_le_mul (by omega) (le_refl _)
      calc i * vo.pointer_size + vo.pointer_size = (i + 1) * vo.pointer_size := by ring
        _ ≤ 13 * vo.pointer_size := h13
    have hsz : vo.size_of_vmctx_x =
        vo.vmctx_builtin_functions_begin_x + 13 * vo.pointer_size := rfl
    generalize hA : i * vo.pointer_size = A at hstep
    generalize hB : (13 : Nat) * vo.pointer_size = B at hstep hsz
    have heq := chainStep_eq_some h8
      (show vo.vmctx_builtin_functions_begin_x + i * vo.pointer_size < 4294967296 by
        rw [hA]; omega)
    refine ⟨_, heq, ?_⟩
    show vo.vmctx_builtin_functions_begin_x + i * vo.pointer_size < vo.size_of_vmctx_x
    rw [hA]
    omega
  · exact ⟨vo.vmctx_globals_begin_x, h7, align_x_mod _⟩

/-- Witness for C2: the in-range property holds at pointer size 8 with one of
every entity. -/
theorem vmctx_accessors_in_range_witness : OffsetsInRange ⟨8, 1, 1, 1, 1, 1, 1, 1, 1⟩ :=
  vmctx_accessors_in_range ⟨8, 1, 1, 1, 1, 1, 1, 1, 1⟩ (Or.inr rfl) (by decide)

/-- C4: for `pointer_size = 8`, `num_signature_ids = 2`, `num_imported_functions
= 1` and all other counts zero, the layout begins are 0, 8 and 24, and the
globals region offset is 16-byte aligned. -/
theorem vmctx_layout_example :
    VMOffsets.vmctx_signature_ids_begin ⟨8, 2, 1, 0, 0, 0, 0, 0, 0⟩ = 0 ∧
    VMOffsets.vmctx_imported_functions_begin ⟨8, 2, 1, 0, 0, 0, 0, 0, 0⟩ = some 8 ∧
    VMOffsets.vmctx_imported_tables_begin ⟨8, 2, 1, 0, 0, 0, 0, 0, 0⟩ = some 24 ∧
    ∃ g, VMOffsets.vmctx_globals_begin ⟨8, 2, 1, 0, 0, 0, 0, 0, 0⟩ = some g ∧ g % 16 = 0 := by
  exact ⟨rfl, by decide, by decide, 32, by decide, by decide⟩

/-- Counterexample for C3: at pointer size 4, one imported global and
`0x1FFFFFFE` defined memories, the unaligned globals offset is `0xFFFFFFF4`;
the unchecked addition inside `align` wraps modulo `2^32`, and
`vmctx_globals_begin` silently returns 0 instead of panicking (the exact value
is `2^32`). -/
theorem vmctx_globals_begin_silent_wrap :
    VMOffsets.vmctx_globals_begin ⟨4, 0, 0, 0, 0, 1, 0, 536870910, 0⟩ = some 0 ∧
    VMOffsets.vmctx_globals_begin_x ⟨4, 0, 0, 0, 0, 1, 0, 536870910, 0⟩ = 4294967296 := by
  exact ⟨by decide, by decide⟩

/-- C3 (amended): every `u32` addition and multiplication in the
`vmctx_*_begin`/`size_of_vmctx`/`vmctx_vm*` chains is checked — so any value
actually returned equals the exact mathematical offset — EXCEPT the rounding
addition inside `align` reached from `vmctx_globals_begin`, which is unchecked:
the functions at or after the alignment step are only wrap-free when the
unaligned globals offset stays below `2^32 - 15`. -/
theorem vmctx_checked_no_silent_wrap (vo : VMOffsets) :
    (∀ v, vo.vmctx_imported_functions_begin = some v →
      v = vo.vmctx_imported_functions_begin_x) ∧
    (∀ v, vo.vmctx_imported_tables_begin = some v →
      v = vo.vmctx_imported_tables_begin_x) ∧
    (∀ v, vo.vmctx_imported_memories_begin = some v →
      v = vo.vmctx_imported_memories_begin_x) ∧
    (∀ v, vo.vmctx_imported_globals_begin = some v →
      v = vo.vmctx_imported_globals_begin_x) ∧
    (∀ v, vo.vmctx_tables_begin = some v → v = vo.vmctx_tables_begin_x) ∧
    (∀ v, vo.vmctx_memories_begin = some v → v = vo.vmctx_memories_begin_x) ∧
    (∀ i v, vo.vmctx_vmshared_signature_id i = some v →
      v = vo.vmctx_signature_ids_begin + i * vo.size_of_vmshared_signature_index) ∧
    (∀ i v, vo.vmctx_vmfunction_import i = some v →
      v = vo.vmctx_imported_functions_begin_x + i * vo.size_of_vmfunction_import) ∧
    (∀ i v, vo.vmctx_vmtable_import i = some v →
      v = vo.vmctx_imported_tables_begin_x + i * vo.size_of_vmtable_import) ∧
    (∀ i v, vo.vmctx_vmmemory_import i = some v →
      v = vo.vmctx_imported_memories_begin_x + i * vo.size_of_vmmemory_import) ∧
    (∀ i v, vo.vmctx_vmglobal_import i = some v →
      v = vo.vmctx_imported_globals_begin_x + i * vo.size_of_vmglobal_import) ∧
    (∀ i v, vo.vmctx_vmtable_definition i = some v →
      v = vo.vmctx_tables_begin_x + i * vo.size_of_vmtable_definition) ∧
    (∀ i v, vo.vmctx_vmmemory_definition i = some v →
      v = vo.vmctx_memories_begin_x + i * vo.size_of_vmmemory_definition) ∧
    (vo.vmctx_globals_unaligned_x + 15 < 4294967296 →
      (∀ v, vo.vmctx_globals_begin = some v → v = vo.vmctx_globals_begin_x) ∧
      (∀ v, vo.vmctx_builtin_functions_begin = some v →
        v = vo.vmctx_builtin_functions_begin_x) ∧
      (∀ v, vo.size_of_vmctx = some v → v = vo.size_of_vmctx_x) ∧
      (∀ i v, vo.vmctx_vmglobal_definition i = some v →
        v = vo.vmctx_globals_begin_x + i * vo.size_of_vmglobal_definition) ∧
      (∀ i v, vo.vmctx_builtin_function i = some v →
        v = vo.vmctx_builtin_functions_begin_x + i * vo.pointer_size)) := by
  have i1 : ∀ v, vo.vmctx_imported_functions_begin = some v →
      v = vo.vmctx_imported_functions_begin_x := by
    intro v h
    obtain ⟨b, hb, hv⟩ :=
      chainStep_some_inv (p := some vo.vmctx_signature_ids_begin) h
    obtain rfl := Option.some.inj hb
    exact hv
  have i2 : ∀ v, vo.vmctx_imported_tables_begin = some v →
      v = vo.vmctx_imported_tables_begin_x := by
    intro v h
    obtain ⟨b, hb, hv⟩ := chainStep_some_inv (p := vo.vmctx_imported_functions_begin) h
    rw [i1 b hb] at hv
    exact hv
  have i3 : ∀ v, vo.vmctx_imported_memories_begin = some v →
      v = vo.vmctx_imported_memories_begin_x := by
    intro v h
    obtain ⟨b, hb, hv⟩ := chainStep_some_inv (p := vo.vmctx_imported_tables_begin) h
    rw [i2 b hb] at hv
    exact hv
  have i4 : ∀ v, vo.vmctx_imported_globals_begin = some v →
      v = vo.vmctx_imported_globals_begin_x := by
    intro v h
    obtain ⟨b, hb, hv⟩ := chainStep_some_inv (p := vo.vmctx_imported_memories_begin) h
    rw [i3 b hb] at hv
    exact hv
  have i5 : ∀ v, vo.vmctx_tables_begin = some v → v = vo.vmctx_tables_begin_x := by
    intro v h
    obtain ⟨b, hb, hv⟩ := chainStep_some_inv (p := vo.vmctx_imported_globals_begin) h
    rw [i4 b hb] at hv
    exact hv
  have i6 : ∀ v, vo.vmctx_memories_begin = some v → v = vo.vmctx_memories_begin_x := by
    intro v h
    obtain ⟨b, hb, hv⟩ := chainStep_some_inv (p := vo.vmctx_tables_begin) h
    rw [i5 b hb] at hv
    exact hv
  refine ⟨i1, i2, i3, i4, i5, i6, ?_, ?_, ?_, ?_, ?_, ?_, ?_, ?_⟩
  · intro i v h
    by_cases hi : i < vo.num_signature_ids
    · unfold VMOffsets.vmctx_vmshared_signature_id at h
      rw [if_pos hi] at h
      obtain ⟨b, hb, hv⟩ :=
        chainStep_some_inv (p := some vo.vmctx_signature_ids_begin) h
      obtain rfl := Option.some.inj hb
      exact hv
    · simp [VMOffsets.vmctx_vmshared_signature_id, hi] at h
  · intro i v h
    by_cases hi : i < vo.num_imported_functions
    · unfold VMOffsets.vmctx_vmfunction_import at h
      rw [if_pos hi] at h
      obtain ⟨b, hb, hv⟩ := chainStep_some_inv (p := vo.vmctx_imported_functions_begin) h
      rw [i1 b hb] at hv
      exact hv
    · simp [VMOffsets.vmctx_vmfunction_import, hi] at h
  · intro i v h
    by_cases hi : i < vo.num_imported_tables
    · unfold VMOffsets.vmctx_vmtable_import at h
      rw [if_pos hi] at h
      obtain ⟨b, hb, hv⟩ := chainStep_some_inv (p := vo.vmctx_imported_tables_begin) h
      rw [i2 b hb] at hv
      exact hv
    · simp [VMOffsets.vmctx_vmtable_import, hi] at h
  · intro i v h
    by_cases hi : i < vo.num_imported_memories
    · unfold VMOffsets.vmctx_vmmemory_import at h
      rw [if_pos hi] at h
      obtain ⟨b, hb, hv⟩ := chainStep_some_inv (p := vo.vmctx_imported_memories_begin) h
      rw [i3 b hb] at hv
      exact hv
    · simp [VMOffsets.vmctx_vmmemory_import, hi] at h
  · intro i v h
    by_cases hi : i < vo.num_imported_globals
    · unfold VMOffsets.vmctx_vmglobal_import at h
      rw [if_pos hi] at h
      obtain ⟨b, hb, hv⟩ := chainStep_some_inv (p := vo.vmctx_imported_globals_begin) h
      rw [i4 b hb] at hv
      exact hv
    · simp [VMOffsets.vmctx_vmglobal_import, hi] at h
  · intro i v h
    by_cases hi : i < vo.num_defined_tables
    · unfold VMOffsets.vmctx_vmtable_definition at h
      rw [if_pos hi] at h
      obtain ⟨b, hb, hv⟩ := chainStep_some_inv (p := vo.vmctx_tables_begin) h
      rw [i5 b hb] at hv
      exact hv
    · simp [VMOffsets.vmctx_vmtable_definition, hi] at h
  · intro i v h
    by_cases hi : i < vo.num_defined_memories
    · unfold VMOffsets.vmctx_vmmemory_definition at h
      rw [if_pos hi] at h
      obtain ⟨b, hb, hv⟩ := chainStep_some_inv (p := vo.vmctx_memories_begin) h
      rw [i6 b hb] at hv
      exact hv
    · simp [VMOffsets.vmctx_vmmemory_definition, hi] at h
  · intro h15
    have ig : ∀ v, vo.vmctx_globals_begin = some v → v = vo.vmctx_globals_begin_x := by
      intro v h
      unfold VMOffsets.vmctx_globals_begin at h
      cases hmem : vo.vmctx_memories_begin with
      | none => rw [hmem] at h; simp at h
      | some b =>
        rw [hmem] at h
        rw [i6 b hmem] at h
        by_cases hm : vo.num_defined_memories * vo.size_of_vmmemory_definition < 4294967296
        · by_cases ha : vo.vmctx_memories_begin_x +
              vo.num_defined_memories * vo.size_of_vmmemory_definition < 4294967296
          · simp [checked_mul, checked_add, hm, ha] at h
            rw [← h]
            calc align (vo.vmctx_memories_begin_x +
                  vo.num_defined_memories * vo.size_of_vmmemory_definition) 16
                = align_x (vo.vmctx_memories_begin_x +
                  vo.num_defined_memories * vo.size_of_vmmemory_definition) 16 :=
                  align_eq_of_lt h15
              _ = vo.vmctx_globals_begin_x := rfl
          · simp [checked_mul, checked_add, hm, ha] at h
        · simp [checked_mul, checked_add, hm] at h
    have ib : ∀ v, vo.vmctx_builtin_functions_begin = some v →
        v = vo.vmctx_builtin_functions_begin_x := by
      intro v h
      obtain ⟨b, hb, hv⟩ := chainStep_some_inv (p := vo.vmctx_globals_begin) h
      rw [ig b hb] at hv
      exact hv
    have isz : ∀ v, vo.size_of_vmctx = some v → v = vo.size_of_vmctx_x := by
      intro v h
      obtain ⟨b, hb, hv⟩ := chainStep_some_inv (p := vo.vmctx_builtin_functions_begin) h
      rw [ib b hb] at hv
      exact hv
    refine ⟨ig, ib, isz, ?_, ?_⟩
    · intro i v h
      by_cases hi : i < vo.num_defined_globals
      · unfold VMOffsets.vmctx_vmglobal_definition at h
        rw [if_pos hi] at h
        obtain ⟨b, hb, hv⟩ := chainStep_some_inv (p := vo.vmctx_globals_begin) h
        rw [ig b hb] at hv
        exact hv
      · simp [VMOffsets.vmctx_vmglobal_definition, hi] at h
    · intro i v h
      obtain ⟨b, hb, hv⟩ := chainStep_some_inv (p := vo.vmctx_builtin_functions_begin) h
      rw [ib b hb] at hv
      exact hv

/-- C1: `declare_memory` rejects a memory with `shared = true` with
`WasmError::Unsupported("shared memories are not supported yet")`, leaving the
whole environment (in particular the memory-plan list) unchanged; for
`shared = false` it succeeds and appends exactly one memory plan. -/
theorem declare_memory_spec (env : ModuleEnvironment) (memory : MemoryType) :
    (memory.shared = true →
      env.declare_memory memory =
        (.error (WasmError.Unsupported "shared memories are not supported yet"), env)) ∧
    (memory.shared = false →
      (env.declare_memory memory).1 = .ok () ∧
      (env.declare_memory memory).2.module.localData.memory_plans =
        env.module.localData.memory_plans ++
          [MemoryPlan.for_memory memory env.tunables]) := by
  constructor <;> intro h <;> simp [ModuleEnvironment.declare_memory, h]

/-- Witness for C1: a shared memory is rejected and the environment is
untouched. -/
theorem declare_memory_spec_witness :
    (ModuleEnvironment.new ⟨0x10000, 0x80000000, 0x10000⟩).declare_memory ⟨1, none, true⟩ =
      (.error (WasmError.Unsupported "shared memories are not supported yet"),
        ModuleEnvironment.new ⟨0x10000, 0x80000000, 0x10000⟩) :=
  (declare_memory_spec _ _).1 rfl

/-- C7: for every triple with a known pointer width, `Tunables::for_target`
returns bound/guard `(0x10000, 0x80000000)` for 64-bit, `(0x4000, 0x10000)` for
32-bit, `(0x400, 0x1000)` for 16-bit targets, dynamic guard `0x10000` always,
and on Windows clamps the bound to at most `0x100` and the static guard to at
most `0x10000`. -/
theorem tunables_for_target_spec (t : Triple) (pw : PointerWidth)
    (h : t.pointer_width = some pw) :
    ∃ tun, Tunables.for_target t = some tun ∧
      tun.dynamic_memory_offset_guard_size = 0x10000 ∧
      tun.static_memory_bound =
        (let base : Nat :=
          match pw with
          | .U16 => 0x400
          | .U32 => 0x4000
          | .U64 => 0x10000
        if t.operating_system = .Windows then min base 0x100 else base) ∧
      tun.static_memory_offset_guard_size =
        (let base : Nat :=
          match pw with
          | .U16 => 0x1000
          | .U32 => 0x10000
          | .U64 => 0x80000000
        if t.operating_system = .Windows then min base 0x10000 else base) := by
  obtain ⟨pwo, os⟩ := t
  simp only at h
  subst h
  cases pw <;> cases os <;>
    exact ⟨_, rfl, rfl, by decide, by decide⟩

/-- Witness for C7: a 64-bit Windows target gets the clamped values. -/
theorem tunables_for_target_spec_witness :
    ∃ tun, Tunables.for_target ⟨some .U64, .Windows⟩ = some tun ∧
      tun.dynamic_memory_offset_guard_size = 0x10000 ∧
      tun.static_memory_bound = 0x100 ∧
      tun.static_memory_offset_guard_size = 0x10000 :=
  tunables_for_target_spec ⟨some .U64, .Windows⟩ .U64 rfl

theorem wasm_types_of_le5 (l : List NativeWasmTy) (h : l.length ≤ 5) :
    wasm_types l = some (l.map NativeWasmTy.wasmType) := by
  rcases l with _ | ⟨a, _ | ⟨b, _ | ⟨c, _ | ⟨d, _ | ⟨e, _ | ⟨f, rest⟩⟩⟩⟩⟩⟩
  · rfl
  · rfl
  · rfl
  · rfl
  · rfl
  · rfl
  · simp at h

/-- C8: for every implemented arity (0 through 5) and parameter/result types
drawn from i32/i64/f32/f64, the `FuncType` returned by `Func::ty()` has exactly
the Wasm type tags of the parameter types and of the result types, in order,
for both `Func::new` and `Func::new_env`. -/
theorem func_ty_spec (args rets : List NativeWasmTy) (address envp : Nat)
    (ha : args.length ≤ 5) (hr : rets.length ≤ 5) :
    (Func.new args rets address).ty =
      some (FuncType.new (args.map NativeWasmTy.wasmType)
        (rets.map NativeWasmTy.wasmType)) ∧
    (Func.new_env args rets envp address).ty =
      some (FuncType.new (args.map NativeWasmTy.wasmType)
        (rets.map NativeWasmTy.wasmType)) := by
  have h1 := wasm_types_of_le5 args ha
  have h2 := wasm_types_of_le5 rets hr
  constructor <;> simp [Func.ty, Func.new, Func.new_env, h1, h2]

/-- Witness for C8: the type of a wrapped `(i32, f64) -> i64` host function. -/
theorem func_ty_spec_witness :
    (Func.new [.i32, .f64] [.i64] 0).ty = some (FuncType.new [.I32, .F64] [.I64]) :=
  (func_ty_spec [.i32, .f64] [.i64] 0 0 (by decide) (by decide)).1

/-- C6: `Artifact::instantiate` performs preinstantiate, import resolution,
memory/table/global creation, `register_frame_info` and `InstanceHandle`
construction in that fixed order; failures of import resolution and
memory/table/global creation are wrapped as `InstantiationError::Link`, traps
from `finish_instantiation` as
`InstantiationError::Start(RuntimeError::from_trap(..))`, and no error from
these steps is returned in any other form. -/
theorem artifact_instantiate_spec (a : ArtifactModel) :
    (∀ e, a.preinstantiate = .error e →
      a.instantiate = ([.preinstantiateStep], .error e)) ∧
    (∀ e, a.preinstantiate = .ok () → a.resolve_imports = .error e →
      a.instantiate = ([.preinstantiateStep, .resolveImportsStep], .error (.Link e))) ∧
    (∀ i e, a.preinstantiate = .ok () → a.resolve_imports = .ok i →
      a.create_memories = .error e →
      a.instantiate = ([.preinstantiateStep, .resolveImportsStep, .createMemoriesStep],
        .error (.Link e))) ∧
    (∀ i m e, a.preinstantiate = .ok () → a.resolve_imports = .ok i →
      a.create_memories = .ok m → a.create_tables = .error e →
      a.instantiate = ([.preinstantiateStep, .resolveImportsStep, .createMemoriesStep,
        .createTablesStep], .error (.Link e))) ∧
    (∀ i m t e, a.preinstantiate = .ok () → a.resolve_imports = .ok i →
      a.create_memories = .ok m → a.create_tables = .ok t →
      a.create_globals = .error e →
      a.instantiate = ([.preinstantiateStep, .resolveImportsStep, .createMemoriesStep,
        .createTablesStep, .createGlobalsStep], .error (.Link e))) ∧
    (∀ i m t g trap, a.preinstantiate = .ok () → a.resolve_imports = .ok i →
      a.create_memories = .ok m → a.create_tables = .ok t → a.create_globals = .ok g →
      a.instance_handle_new = .error trap →
      a.instantiate = ([.preinstantiateStep, .resolveImportsStep, .createMemoriesStep,
        .createTablesStep, .createGlobalsStep, .registerFrameInfoStep, .buildHandleStep],
        .error (.Start (RuntimeError.from_trap trap)))) ∧
    (∀ i m t g hdl, a.preinstantiate = .ok () → a.resolve_imports = .ok i →
      a.create_memories = .ok m → a.create_tables = .ok t → a.create_globals = .ok g →
      a.instance_handle_new = .ok hdl →
      a.instantiate = ([.preinstantiateStep, .resolveImportsStep, .createMemoriesStep,
        .createTablesStep, .createGlobalsStep, .registerFrameInfoStep, .buildHandleStep],
        .ok hdl)) ∧
    (∀ err, a.instantiate.2 = .error err →
      (∃ le, err = .Link le) ∨ (∃ re, err = .Start re) ∨ a.preinstantiate = .error err) ∧
    (∀ trap, a.handle_finish_instantiation = .error trap →
      a.finish_instantiation = .error (.Start (RuntimeError.from_trap trap))) ∧
    (a.handle_finish_instantiation = .ok () → a.finish_instantiation = .ok ()) := by
  refine ⟨?_, ?_, ?_, ?_, ?_, ?_, ?_, ?_, ?_, ?_⟩
  · intro e h
    simp [ArtifactModel.instantiate, h]
  · intro e h1 h2
    simp [ArtifactModel.instantiate, h1, h2]
  · intro i e h1 h2 h3
    simp [ArtifactModel.instantiate, h1, h2, h3]
  · intro i m e h1 h2 h3 h4
    simp [ArtifactModel.instantiate, h1, h2, h3, h4]
  · intro i m t e h1 h2 h3 h4 h5
    simp [ArtifactModel.instantiate, h1, h2, h3, h4, h5]
  · intro i m t g trap h1 h2 h3 h4 h5 h6
    simp [ArtifactModel.instantiate, h1, h2, h3, h4, h5, h6]
  · intro i m t g hdl h1 h2 h3 h4 h5 h6
    simp [ArtifactModel.instantiate, h1, h2, h3, h4, h5, h6]
  · intro err h
    cases hp : a.preinstantiate with
    | error e =>
      simp [ArtifactModel.instantiate, hp] at h
      subst h
      exact Or.inr (Or.inr rfl)
    | ok u =>
      cases u
      cases hr : a.resolve_imports with
      | error e =>
        simp [ArtifactModel.instantiate, hp, hr] at h
        subst h
        exact Or.inl ⟨e, rfl⟩
      | ok i =>
        cases hm : a.create_memories with
        | error e =>
          simp [ArtifactModel.instantiate, hp, hr, hm] at h
          subst h
          exact Or.inl ⟨e, rfl⟩
        | ok m =>
          cases ht : a.create_tables with
          | error e =>
            simp [ArtifactModel.instantiate, hp, hr, hm, ht] at h
            subst h
            exact Or.inl ⟨e, rfl⟩
          | ok tb =>
            cases hg : a.create_globals with
            | error e =>
              simp [ArtifactModel.instantiate, hp, hr, hm, ht, hg] at h
              subst h
              exact Or.inl ⟨e, rfl⟩
            | ok g =>
              cases hh : a.instance_handle_new with
              | error trap =>
                simp [ArtifactModel.instantiate, hp, hr, hm, ht, hg, hh] at h
                subst h
                exact Or.inr (Or.inl ⟨RuntimeError.from_trap trap, rfl⟩)
              | ok hdl =>
                simp [ArtifactModel.instantiate, hp, hr, hm, ht, hg, hh] at h
  · intro trap h
    simp [ArtifactModel.finish_instantiation, h]
  · intro h
    simp [ArtifactModel.finish_instantiation, h]

/-- Witness for C6: a failing import resolution yields exactly a `Link` error
after the first two steps. -/
theorem artifact_instantiate_spec_witness :
    ArtifactModel.instantiate
        ⟨.ok (), .error (.Import "m"), .ok 0, .ok 0, .ok 0, .ok 0, .ok ()⟩ =
      ([.preinstantiateStep, .resolveImportsStep],
        .error (.Link (.Import "m"))) :=
  (artifact_instantiate_spec _).2.1 (.Import "m") rfl rfl

/-! ### Translator invariants: ordering and layout lemmas -/

theorem importsFirst_cons {imp loc : DeclEvent → Bool} {seen : Bool} {e : DeclEvent}
    {es : List DeclEvent} (h : importsFirst imp loc seen (e :: es) = true) :
    (imp e && seen) = false ∧ importsFirst imp loc (seen || loc e) es = true := by
  unfold importsFirst at h
  by_cases hc : (imp e && seen) = true
  · rw [if_pos hc] at h
    exact absurd h (by simp)
  · rw [if_neg hc] at h
    exact ⟨by simpa using hc, h⟩

theorem importsFirst_true_no_imports {imp loc : DeclEvent → Bool} :
    ∀ {evs : List DeclEvent}, importsFirst imp loc true evs = true →
      ∀ e ∈ evs, imp e = false := by
  intro evs
  induction evs with
  | nil => intro _ e he; cases he
  | cons x xs ih =>
    intro h e he
    obtain ⟨h1, h2⟩ := importsFirst_cons h
    have hx : imp x = false := by simpa using h1
    rcases List.mem_cons.mp he with rfl | he'
    · exact hx
    · exact ih (by simpa using h2) e he'

theorem importsFirst_append_left {imp loc : DeclEvent → Bool} :
    ∀ (l1 : List DeclEvent) (s : Bool) (l2 : List DeclEvent),
      importsFirst imp loc s (l1 ++ l2) = true → importsFirst imp loc s l1 = true := by
  intro l1
  induction l1 with
  | nil => intro s l2 _; rfl
  | cons x xs ih =>
    intro s l2 h
    rw [List.cons_append] at h
    obtain ⟨h1, h2⟩ := importsFirst_cons h
    unfold importsFirst
    rw [if_neg (by simp_all)]
    exact ih _ l2 h2

theorem no_locals_before_import {imp loc : DeclEvent → Bool} :
    ∀ (l1 : List DeclEvent) (s : Bool) (e : DeclEvent) (l2 : List DeclEvent),
      importsFirst imp loc s (l1 ++ e :: l2) = true → imp e = true →
      ∀ x ∈ l1, loc x = false := by
  intro l1
  induction l1 with
  | nil => intro _ _ _ _ _ x hx; cases hx
  | cons y ys ih =>
    intro s e l2 h himp x hx
    rw [List.cons_append] at h
    obtain ⟨_, h2⟩ := importsFirst_cons h
    rcases List.mem_cons.mp hx with rfl | hx'
    · by_contra hl
      have hl' : loc x = true := by
        cases hloc : loc x
        · exact absurd hloc hl
        · rfl
      rw [hl'] at h2
      have := importsFirst_true_no_imports (by simpa using h2) e
        (List.mem_append_right ys (List.mem_cons_self e l2))
      rw [himp] at this
      cases this
    · exact ih _ e l2 h2 himp x hx'

theorem funcImportSig_none {e : DeclEvent} (h : isFuncImport e = false) :
    funcImportSig e = none := by
  cases e <;> simp_all [isFuncImport, funcImportSig]

theorem funcLocalSig_none {e : DeclEvent} (h : isFuncLocal e = false) :
    funcLocalSig e = none := by
  cases e <;> simp_all [isFuncLocal, funcLocalSig]

theorem tableImportPlan_none {tun : Tunables} {e : DeclEvent}
    (h : isTableImport e = false) : tableImportPlan tun e = none := by
  cases e <;> simp_all [isTableImport, tableImportPlan]

theorem tableLocalPlan_none {tun : Tunables} {e : DeclEvent}
    (h : isTableLocal e = false) : tableLocalPlan tun e = none := by
  cases e <;> simp_all [isTableLocal, tableLocalPlan]

theorem memoryImportPlan_none {tun : Tunables} {e : DeclEvent}
    (h : isMemoryImport e = false) : memoryImportPlan tun e = none := by
  cases e <;> simp_all [isMemoryImport, memoryImportPlan]

theorem memoryLocalPlan_none {tun : Tunables} {e : DeclEvent}
    (h : isMemoryLocal e = false) : memoryLocalPlan tun e = none := by
  cases e <;> simp_all [isMemoryLocal, memoryLocalPlan]

theorem globalImportTy_none {e : DeclEvent} (h : isGlobalImport e = false) :
    globalImportTy e = none := by
  cases e <;> simp_all [isGlobalImport, globalImportTy]

theorem globalLocalTy_none {e : DeclEvent} (h : isGlobalLocal e = false) :
    globalLocalTy e = none := by
  cases e <;> simp_all [isGlobalLocal, globalLocalTy]

theorem filterMap_none_eq_nil {α β : Type} {f : α → Option β} :
    ∀ {l : List α}, (∀ a ∈ l, f a = none) → l.filterMap f = [] := by
  intro l
  induction l with
  | nil => intro _; rfl
  | cons x xs ih =>
    intro h
    rw [List.filterMap_cons, h x (List.mem_cons_self x xs)]
    exact ih (fun a ha => h a (List.mem_cons_of_mem x ha))

/-- The central translator invariant: running any declaration sequence in which,
per entity class, no import follows a local definition yields per-class lists
that are the initial list, then the imported entries in order, then the local
entries in order, with the import counters advanced by the number of imports. -/
theorem runEvents_layout :
    ∀ (evs : List DeclEvent) (env : ModuleEnvironment) (sf st sm sg : Bool)
      (env' : ModuleEnvironment),
      importsFirst isFuncImport isFuncLocal sf evs = true →
      importsFirst isTableImport isTableLocal st evs = true →
      importsFirst isMemoryImport isMemoryLocal sm evs = true →
      importsFirst isGlobalImport isGlobalLocal sg evs = true →
      runEvents env evs = .ok env' →
      env'.tunables = env.tunables ∧
      env'.module.localData.functions =
        env.module.localData.functions ++ evs.filterMap funcImportSig
          ++ evs.filterMap funcLocalSig ∧
      env'.module.localData.num_imported_funcs =
        env.module.localData.num_imported_funcs + (evs.filterMap funcImportSig).length ∧
      env'.module.localData.table_plans =
        env.module.localData.table_plans ++ evs.filterMap (tableImportPlan env.tunables)
          ++ evs.filterMap (tableLocalPlan env.tunables) ∧
      env'.module.localData.num_imported_tables =
        env.module.localData.num_imported_tables +
          (evs.filterMap (tableImportPlan env.tunables)).length ∧
      env'.module.localData.memory_plans =
        env.module.localData.memory_plans ++ evs.filterMap (memoryImportPlan env.tunables)
          ++ evs.filterMap (memoryLocalPlan env.tunables) ∧
      env'.module.localData.num_imported_memories =
        env.module.localData.num_imported_memories +
          (evs.filterMap (memoryImportPlan env.tunables)).length ∧
      env'.module.localData.globals =
        env.module.localData.globals ++ evs.filterMap globalImportTy
          ++ evs.filterMap globalLocalTy ∧
      env'.module.localData.num_imported_globals =
        env.module.localData.num_imported_globals +
          (evs.filterMap globalImportTy).length := by
  intro evs
  induction evs with
  | nil =>
    intro env sf st sm sg env' _ _ _ _ hrun
    simp only [runEvents] at hrun
    obtain rfl := (Except.ok.injEq _ _).mp hrun
    simp
  | cons e es ih =>
    intro env sf st sm sg env' hf ht hm hg hrun
    obtain ⟨hf1, hf2⟩ := importsFirst_cons hf
    obtain ⟨ht1, ht2⟩ := importsFirst_cons ht
    obtain ⟨hm1, hm2⟩ := importsFirst_cons hm
    obtain ⟨hg1, hg2⟩ := importsFirst_cons hg
    cases e with
    | signature sig =>
      simp only [runEvents, declStep, ModuleEnvironment.declare_signature] at hrun
      obtain ⟨c1, c2, c3, c4, c5, c6, c7, c8, c9⟩ := ih _ sf st sm sg env'
        (by simpa [isFuncLocal] using hf2) (by simpa [isTableLocal] using ht2)
        (by simpa [isMemoryLocal] using hm2) (by simpa [isGlobalLocal] using hg2) hrun
      refine ⟨?_, ?_, ?_, ?_, ?_, ?_, ?_, ?_, ?_⟩ <;>
        simp [List.filterMap_cons, funcImportSig, funcLocalSig, tableImportPlan,
          tableLocalPlan, memoryImportPlan, memoryLocalPlan, globalImportTy,
          globalLocalTy, c1, c2, c3, c4, c5, c6, c7, c8, c9]
    | funcImport s m f =>
      simp only [runEvents, declStep, ModuleEnvironment.declare_func_import,
        ModuleEnvironment.declare_import] at hrun
      obtain ⟨c1, c2, c3, c4, c5, c6, c7, c8, c9⟩ := ih _ sf st sm sg env'
        (by simpa [isFuncLocal] using hf2) (by simpa [isTableLocal] using ht2)
        (by simpa [isMemoryLocal] using hm2) (by simpa [isGlobalLocal] using hg2) hrun
      refine ⟨?_, ?_, ?_, ?_, ?_, ?_, ?_, ?_, ?_⟩ <;>
        simp [List.filterMap_cons, funcImportSig, funcLocalSig, tableImportPlan,
          tableLocalPlan, memoryImportPlan, memoryLocalPlan, globalImportTy,
          globalLocalTy, c1, c2, c3, c4, c5, c6, c7, c8, c9] <;> omega
    | tableImport t m f =>
      simp only [runEvents, declStep, ModuleEnvironment.declare_table_import,
        ModuleEnvironment.declare_import] at hrun
      obtain ⟨c1, c2, c3, c4, c5, c6, c7, c8, c9⟩ := ih _ sf st sm sg env'
        (by simpa [isFuncLocal] using hf2) (by simpa [isTableLocal] using ht2)
        (by simpa [isMemoryLocal] using hm2) (by simpa [isGlobalLocal] using hg2) hrun
      refine ⟨?_, ?_, ?_, ?_, ?_, ?_, ?_, ?_, ?_⟩ <;>
        simp [List.filterMap_cons, funcImportSig, funcLocalSig, tableImportPlan,
          tableLocalPlan, memoryImportPlan, memoryLocalPlan, globalImportTy,
          globalLocalTy, c1, c2, c3, c4, c5, c6, c7, c8, c9] <;> omega
    | memoryImport mem m f =>
      simp only [runEvents, declStep, ModuleEnvironment.declare_memory_import,
        ModuleEnvironment.declare_import] at hrun
      obtain ⟨c1, c2, c3, c4, c5, c6, c7, c8, c9⟩ := ih _ sf st sm sg env'
        (by simpa [isFuncLocal] using hf2) (by simpa [isTableLocal] using ht2)
        (by simpa [isMemoryLocal] using hm2) (by simpa [isGlobalLocal] using hg2) hrun
      refine ⟨?_, ?_, ?_, ?_, ?_, ?_, ?_, ?_, ?_⟩ <;>
        simp [List.filterMap_cons, funcImportSig, funcLocalSig, tableImportPlan,
          tableLocalPlan, memoryImportPlan, memoryLocalPlan, globalImportTy,
          globalLocalTy, c1, c2, c3, c4, c5, c6, c7, c8, c9] <;> omega
    | globalImport g m f =>
      simp only [runEvents, declStep, ModuleEnvironment.declare_global_import,
        ModuleEnvironment.declare_import] at hrun
      obtain ⟨c1, c2, c3, c4, c5, c6, c7, c8, c9⟩ := ih _ sf st sm sg env'
        (by simpa [isFuncLocal] using hf2) (by simpa [isTableLocal] using ht2)
        (by simpa [isMemoryLocal] using hm2) (by simpa [isGlobalLocal] using hg2) hrun
      refine ⟨?_, ?_, ?_, ?_, ?_, ?_, ?_, ?_, ?_⟩ <;>
        simp [List.filterMap_cons, funcImportSig, funcLocalSig, tableImportPlan,
          tableLocalPlan, memoryImportPlan, memoryLocalPlan, globalImportTy,
          globalLocalTy, c1, c2, c3, c4, c5, c6, c7, c8, c9] <;> omega
    | funcType s =>
      simp only [runEvents, declStep, ModuleEnvironment.declare_func_type] at hrun
      obtain ⟨c1, c2, c3, c4, c5, c6, c7, c8, c9⟩ := ih _ true st sm sg env'
        (by simpa [isFuncLocal] using hf2) (by simpa [isTableLocal] using ht2)
        (by simpa [isMemoryLocal] using hm2) (by simpa [isGlobalLocal] using hg2) hrun
      have hnof : es.filterMap funcImportSig = [] :=
        filterMap_none_eq_nil (fun a ha => funcImportSig_none
          (importsFirst_true_no_imports (by simpa [isFuncLocal] using hf2) a ha))
      refine ⟨?_, ?_, ?_, ?_, ?_, ?_, ?_, ?_, ?_⟩ <;>
        simp [List.filterMap_cons, funcImportSig, funcLocalSig, tableImportPlan,
          tableLocalPlan, memoryImportPlan, memoryLocalPlan, globalImportTy,
          globalLocalTy, hnof, c1, c2, c3, c4, c5, c6, c7, c8, c9]
    | table t =>
      simp only [runEvents, declStep, ModuleEnvironment.declare_table] at hrun
      obtain ⟨c1, c2, c3, c4, c5, c6, c7, c8, c9⟩ := ih _ sf true sm sg env'
        (by simpa [isFuncLocal] using hf2) (by simpa [isTableLocal] using ht2)
        (by simpa [isMemoryLocal] using hm2) (by simpa [isGlobalLocal] using hg2) hrun
      have hnot : es.filterMap (tableImportPlan env.tunables) = [] :=
        filterMap_none_eq_nil (fun a ha => tableImportPlan_none
          (importsFirst_true_no_imports (by simpa [isTableLocal] using ht2) a ha))
      refine ⟨?_, ?_, ?_, ?_, ?_, ?_, ?_, ?_, ?_⟩ <;>
        simp [List.filterMap_cons, funcImportSig, funcLocalSig, tableImportPlan,
          tableLocalPlan, memoryImportPlan, memoryLocalPlan, globalImportTy,
          globalLocalTy, hnot, c1, c2, c3, c4, c5, c6, c7, c8, c9]
    | memory mem =>
      simp only [runEvents, declStep, ModuleEnvironment.declare_memory] at hrun
      by_cases hsh : mem.shared = true
      · rw [if_pos hsh] at hrun
        simp at hrun
      · rw [if_neg hsh] at hrun
        simp only [] at hrun
        obtain ⟨c1, c2, c3, c4, c5, c6, c7, c8, c9⟩ := ih _ sf st true sg env'
          (by simpa [isFuncLocal] using hf2) (by simpa [isTableLocal] using ht2)
          (by simpa [isMemoryLocal] using hm2) (by simpa [isGlobalLocal] using hg2) hrun
        have hnom : es.filterMap (memoryImportPlan env.tunables) = [] :=
          filterMap_none_eq_nil (fun a ha => memoryImportPlan_none
            (importsFirst_true_no_imports (by simpa [isMemoryLocal] using hm2) a ha))
        refine ⟨?_, ?_, ?_, ?_, ?_, ?_, ?_, ?_, ?_⟩ <;>
          simp [List.filterMap_cons, funcImportSig, funcLocalSig, tableImportPlan,
            tableLocalPlan, memoryImportPlan, memoryLocalPlan, globalImportTy,
            globalLocalTy, hnom, c1, c2, c3, c4, c5, c6, c7, c8, c9]
    | global g =>
      simp only [runEvents, declStep, ModuleEnvironment.declare_global] at hrun
      obtain ⟨c1, c2, c3, c4, c5, c6, c7, c8, c9⟩ := ih _ sf st sm true env'
        (by simpa [isFuncLocal] using hf2) (by simpa [isTableLocal] using ht2)
        (by simpa [isMemoryLocal] using hm2) (by simpa [isGlobalLocal] using hg2) hrun
      have hnog : es.filterMap globalImportTy = [] :=
        filterMap_none_eq_nil (fun a ha => globalImportTy_none
          (importsFirst_true_no_imports (by simpa [isGlobalLocal] using hg2) a ha))
      refine ⟨?_, ?_, ?_, ?_, ?_, ?_, ?_, ?_, ?_⟩ <;>
        simp [List.filterMap_cons, funcImportSig, funcLocalSig, tableImportPlan,
          tableLocalPlan, memoryImportPlan, memoryLocalPlan, globalImportTy,
          globalLocalTy, hnog, c1, c2, c3, c4, c5, c6, c7, c8, c9]

/-- C5: for every translation state reachable by declaration calls in which,
per entity class, all imports precede local definitions: each entity list is
exactly the imported entries (in order) followed by the local entries (in
order), the import counter equals the number of imported entries, and each
call importing an entity finds `E_list.len() == num_imported_E` (the
`debug_assert_eq!` boundary condition in `declare_*_import`). -/
theorem translator_imports_first (tun : Tunables) (evs : List DeclEvent)
    (env' : ModuleEnvironment)
    (hf : importsBeforeLocals isFuncImport isFuncLocal evs = true)
    (ht : importsBeforeLocals isTableImport isTableLocal evs = true)
    (hm : importsBeforeLocals isMemoryImport isMemoryLocal evs = true)
    (hg : importsBeforeLocals isGlobalImport isGlobalLocal evs = true)
    (hrun : runEvents (ModuleEnvironment.new tun) evs = .ok env') :
    (env'.module.localData.functions =
        evs.filterMap funcImportSig ++ evs.filterMap funcLocalSig ∧
      env'.module.localData.num_imported_funcs =
        (evs.filterMap funcImportSig).length) ∧
    (env'.module.localData.table_plans =
        evs.filterMap (tableImportPlan tun) ++ evs.filterMap (tableLocalPlan tun) ∧
      env'.module.localData.num_imported_tables =
        (evs.filterMap (tableImportPlan tun)).length) ∧
    (env'.module.localData.memory_plans =
        evs.filterMap (memoryImportPlan tun) ++ evs.filterMap (memoryLocalPlan tun) ∧
      env'.module.localData.num_imported_memories =
        (evs.filterMap (memoryImportPlan tun)).length) ∧
    (env'.module.localData.globals =
        evs.filterMap globalImportTy ++ evs.filterMap globalLocalTy ∧
      env'.module.localData.num_imported_globals =
        (evs.filterMap globalImportTy).length) ∧
    (∀ l1 e l2 env1, evs = l1 ++ e :: l2 →
      runEvents (ModuleEnvironment.new tun) l1 = .ok env1 →
      (isFuncImport e = true →
        env1.module.localData.functions.length =
          env1.module.localData.num_imported_funcs) ∧
      (isTableImport e = true →
        env1.module.localData.table_plans.length =
          env1.module.localData.num_imported_tables) ∧
      (isMemoryImport e = true →
        env1.module.localData.memory_plans.length =
          env1.module.localData.num_imported_memories) ∧
      (isGlobalImport e = true →
        env1.module.localData.globals.length =
          env1.module.localData.num_imported_globals)) := by
  obtain ⟨c1, c2, c3, c4, c5, c6, c7, c8, c9⟩ := runEvents_layout evs
    (ModuleEnvironment.new tun) false false false false env' hf ht hm hg hrun
  refine ⟨⟨?_, ?_⟩, ⟨?_, ?_⟩, ⟨?_, ?_⟩, ⟨?_, ?_⟩, ?_⟩
  · simpa [ModuleEnvironment.new] using c2
  · simpa [ModuleEnvironment.new] using c3
  · simpa [ModuleEnvironment.new] using c4
  · simpa [ModuleEnvironment.new] using c5
  · simpa [ModuleEnvironment.new] using c6
  · simpa [ModuleEnvironment.new] using c7
  · simpa [ModuleEnvironment.new] using c8
  · simpa [ModuleEnvironment.new] using c9
  · intro l1 e l2 env1 hsplit hrun1
    subst hsplit
    have hof : importsFirst isFuncImport isFuncLocal false l1 = true :=
      importsFirst_append_left l1 false (e :: l2) hf
    have hot : importsFirst isTableImport isTableLocal false l1 = true :=
      importsFirst_append_left l1 false (e :: l2) ht
    have hom : importsFirst isMemoryImport isMemoryLocal false l1 = true :=
      importsFirst_append_left l1 false (e :: l2) hm
    have hog : importsFirst isGlobalImport isGlobalLocal false l1 = true :=
      importsFirst_append_left l1 false (e :: l2) hg
    obtain ⟨d1, d2, d3, d4, d5, d6, d7, d8, d9⟩ := runEvents_layout l1
      (ModuleEnvironment.new tun) false false false false env1 hof hot hom hog hrun1
    refine ⟨?_, ?_, ?_, ?_⟩
    · intro himp
      have hloc : ∀ x ∈ l1, isFuncLocal x = false :=
        no_locals_before_import l1 false e l2 hf himp
      have hnil : l1.filterMap funcLocalSig = [] :=
        filterMap_none_eq_nil (fun a ha => funcLocalSig_none (hloc a ha))
      rw [d2, d3]
      simp [ModuleEnvironment.new, hnil]
    · intro himp
      have hloc : ∀ x ∈ l1, isTableLocal x = false :=
        no_locals_before_import l1 false e l2 ht himp
      have hnil : l1.filterMap (tableLocalPlan tun) = [] :=
        filterMap_none_eq_nil (fun a ha => tableLocalPlan_none (hloc a ha))
      rw [d4, d5]
      simp [ModuleEnvironment.new, hnil]
    · intro himp
      have hloc : ∀ x ∈ l1, isMemoryLocal x = false :=
        no_locals_before_import l1 false e l2 hm himp
      have hnil : l1.filterMap (memoryLocalPlan tun) = [] :=
        filterMap_none_eq_nil (fun a ha => memoryLocalPlan_none (hloc a ha))
      rw [d6, d7]
      simp [ModuleEnvironment.new, hnil]
    · intro himp
      have hloc : ∀ x ∈ l1, isGlobalLocal x = false :=
        no_locals_before_import l1 false e l2 hg himp
      have hnil : l1.filterMap globalLocalTy = [] :=
        filterMap_none_eq_nil (fun a ha => globalLocalTy_none (hloc a ha))
      rw [d8, d9]
      simp [ModuleEnvironment.new, hnil]

/-- Witness for C5: one imported function followed by one local function. -/
theorem translator_imports_first_witness :
    ∃ env', runEvents (ModuleEnvironment.new ⟨0x10000, 0x80000000, 0x10000⟩)
        [DeclEvent.funcImport 5 "m" "f", DeclEvent.funcType 7] = .ok env' ∧
      env'.module.localData.functions = [5, 7] ∧
      env'.module.localData.num_imported_funcs = 1 := by
  refine ⟨_, rfl, ?_, ?_⟩
  · exact (translator_imports_first ⟨0x10000, 0x80000000, 0x10000⟩
      [DeclEvent.funcImport 5 "m" "f", DeclEvent.funcType 7] _
      (by decide) (by decide) (by decide) (by decide) rfl).1.1
  · exact (translator_imports_first ⟨0x10000, 0x80000000, 0x10000⟩
      [DeclEvent.funcImport 5 "m" "f", DeclEvent.funcType 7] _
      (by decide) (by decide) (by decide) (by decide) rfl).1.2

/-- Counting invariant of the translator state machine: every table, memory and
global declaration (import or local) appends exactly one entry to the shared
per-class container, and each import bumps the import counter. -/
theorem runEvents_counts :
    ∀ (evs : List DeclEvent) (env env' : ModuleEnvironment),
      runEvents env evs = .ok env' →
      env'.module.localData.table_plans.length =
        env.module.localData.table_plans.length + evs.countP isTableImport +
          evs.countP isTableLocal ∧
      env'.module.localData.num_imported_tables =
        env.module.localData.num_imported_tables + evs.countP isTableImport ∧
      env'.module.localData.memory_plans.length =
        env.module.localData.memory_plans.length + evs.countP isMemoryImport +
          evs.countP isMemoryLocal ∧
      env'.module.localData.num_imported_memories =
        env.module.localData.num_imported_memories + evs.countP isMemoryImport ∧
      env'.module.localData.globals.length =
        env.module.localData.globals.length + evs.countP isGlobalImport +
          evs.countP isGlobalLocal ∧
      env'.module.localData.num_imported_globals =
        env.module.localData.num_imported_globals + evs.countP isGlobalImport := by
  intro evs
  induction evs with
  | nil =>
    intro env env' hrun
    simp only [runEvents] at hrun
    obtain rfl := (Except.ok.injEq _ _).mp hrun
    simp
  | cons e es ih =>
    intro env env' hrun
    cases e with
    | signature sig =>
      simp only [runEvents, declStep, ModuleEnvironment.declare_signature] at hrun
      obtain ⟨d1, d2, d3, d4, d5, d6⟩ := ih _ env' hrun
      refine ⟨?_, ?_, ?_, ?_, ?_, ?_⟩ <;>
        simp [List.countP_cons, isTableImport, isTableLocal, isMemoryImport,
          isMemoryLocal, isGlobalImport, isGlobalLocal, d1, d2, d3, d4, d5, d6] <;>
        omega
    | funcImport s m f =>
      simp only [runEvents, declStep, ModuleEnvironment.declare_func_import,
        ModuleEnvironment.declare_import] at hrun
      obtain ⟨d1, d2, d3, d4, d5, d6⟩ := ih _ env' hrun
      refine ⟨?_, ?_, ?_, ?_, ?_, ?_⟩ <;>
        simp [List.countP_cons, isTableImport, isTableLocal, isMemoryImport,
          isMemoryLocal, isGlobalImport, isGlobalLocal, d1, d2, d3, d4, d5, d6] <;>
        omega
    | tableImport t m f =>
      simp only [runEvents, declStep, ModuleEnvironment.declare_table_import,
        ModuleEnvironment.declare_import] at hrun
      obtain ⟨d1, d2, d3, d4, d5, d6⟩ := ih _ env' hrun
      refine ⟨?_, ?_, ?_, ?_, ?_, ?_⟩ <;>
        simp [List.countP_cons, isTableImport, isTableLocal, isMemoryImport,
          isMemoryLocal, isGlobalImport, isGlobalLocal, d1, d2, d3, d4, d5, d6] <;>
        omega
    | memoryImport mem m f =>
      simp only [runEvents, declStep, ModuleEnvironment.declare_memory_import,
        ModuleEnvironment.declare_import] at hrun
      obtain ⟨d1, d2, d3, d4, d5, d6⟩ := ih _ env' hrun
      refine ⟨?_, ?_, ?_, ?_, ?_, ?_⟩ <;>
        simp [List.countP_cons, isTableImport, isTableLocal, isMemoryImport,
          isMemoryLocal, isGlobalImport, isGlobalLocal, d1, d2, d3, d4, d5, d6] <;>
        omega
    | globalImport g m f =>
      simp only [runEvents, declStep, ModuleEnvironment.declare_global_import,
        ModuleEnvironment.declare_import] at hrun
      obtain ⟨d1, d2, d3, d4, d5, d6⟩ := ih _ env' hrun
      refine ⟨?_, ?_, ?_, ?_, ?_, ?_⟩ <;>
        simp [List.countP_cons, isTableImport, isTableLocal, isMemoryImport,
          isMemoryLocal, isGlobalImport, isGlobalLocal, d1, d2, d3, d4, d5, d6] <;>
        omega
    | funcType s =>
      simp only [runEvents, declStep, ModuleEnvironment.declare_func_type] at hrun
      obtain ⟨d1, d2, d3, d4, d5, d6⟩ := ih _ env' hrun
      refine ⟨?_, ?_, ?_, ?_, ?_, ?_⟩ <;>
        simp [List.countP_cons, isTableImport, isTableLocal, isMemoryImport,
          isMemoryLocal, isGlobalImport, isGlobalLocal, d1, d2, d3, d4, d5, d6] <;>
        omega
    | table t =>
      simp only [runEvents, declStep, ModuleEnvironment.declare_table] at hrun
      obtain ⟨d1, d2, d3, d4, d5, d6⟩ := ih _ env' hrun
      refine ⟨?_, ?_, ?_, ?_, ?_, ?_⟩ <;>
        simp [List.countP_cons, isTableImport, isTableLocal, isMemoryImport,
          isMemoryLocal, isGlobalImport, isGlobalLocal, d1, d2, d3, d4, d5, d6] <;>
        omega
    | memory mem =>
      simp only [runEvents, declStep, ModuleEnvironment.declare_memory] at hrun
      by_cases hsh : mem.shared = true
      · rw [if_pos hsh] at hrun
        simp at hrun
      · rw [if_neg hsh] at hrun
        obtain ⟨d1, d2, d3, d4, d5, d6⟩ := ih _ env' hrun
        refine ⟨?_, ?_, ?_, ?_, ?_, ?_⟩ <;>
          simp [List.countP_cons, isTableImport, isTableLocal, isMemoryImport,
            isMemoryLocal, isGlobalImport, isGlobalLocal, d1, d2, d3, d4, d5, d6] <;>
          omega
    | global g =>
      simp only [runEvents, declStep, ModuleEnvironment.declare_global] at hrun
      obtain ⟨d1, d2, d3, d4, d5, d6⟩ := ih _ env' hrun
      refine ⟨?_, ?_, ?_, ?_, ?_, ?_⟩ <;>
        simp [List.countP_cons, isTableImport, isTableLocal, isMemoryImport,
          isMemoryLocal, isGlobalImport, isGlobalLocal, d1, d2, d3, d4, d5, d6] <;>
        omega

/-- C10: `VMOffsets::new` sets the `num_defined_*` counts to the lengths of
`table_plans`, `memory_plans` and `globals`; since the translator pushes the
imported tables, memories and globals into these same containers, each
"defined" count equals the total (imported plus locally defined) count. -/
theorem vmoffsets_defined_are_totals (tun : Tunables) (p : Nat)
    (evs : List DeclEvent) (env' : ModuleEnvironment)
    (hrun : runEvents (ModuleEnvironment.new tun) evs = .ok env')
    (h1 : env'.module.localData.signatures.length < 4294967296)
    (h2 : env'.module.localData.num_imported_funcs < 4294967296)
    (h3 : env'.module.localData.num_imported_tables < 4294967296)
    (h4 : env'.module.localData.num_imported_memories < 4294967296)
    (h5 : env'.module.localData.num_imported_globals < 4294967296)
    (h6 : env'.module.localData.table_plans.length < 4294967296)
    (h7 : env'.module.localData.memory_plans.length < 4294967296)
    (h8 : env'.module.localData.globals.length < 4294967296) :
    ∃ vo, VMOffsets.new p env'.module.localData = some vo ∧
      vo.num_defined_tables = env'.module.localData.table_plans.length ∧
      vo.num_defined_memories = env'.module.localData.memory_plans.length ∧
      vo.num_defined_globals = env'.module.localData.globals.length ∧
      vo.num_defined_tables = vo.num_imported_tables + evs.countP isTableLocal ∧
      vo.num_defined_memories = vo.num_imported_memories + evs.countP isMemoryLocal ∧
      vo.num_defined_globals = vo.num_imported_globals + evs.countP isGlobalLocal := by
  obtain ⟨d1, d2, d3, d4, d5, d6⟩ :=
    runEvents_counts evs (ModuleEnvironment.new tun) env' hrun
  simp [ModuleEnvironment.new] at d1 d2 d3 d4 d5 d6
  refine ⟨⟨p,
    env'.module.localData.signatures.length,
    env'.module.localData.num_imported_funcs,
    env'.module.localData.num_imported_tables,
    env'.module.localData.num_imported_memories,
    env'.module.localData.num_imported_globals,
    env'.module.localData.table_plans.length,
    env'.module.localData.memory_plans.length,
    env'.module.localData.globals.length⟩, ?_, rfl, rfl, rfl, ?_, ?_, ?_⟩
  · simp [VMOffsets.new, cast_to_u32, h1, h2, h3, h4, h5, h6, h7, h8]
  · simp only []
    omega
  · simp only []
    omega
  · simp only []
    omega

/-- Witness for C10: one imported table and one local table give
`num_defined_tables = num_imported_tables + 1`. -/
theorem vmoffsets_defined_are_totals_witness :
    ∃ env', runEvents (ModuleEnvironment.new ⟨0x10000, 0x80000000, 0x10000⟩)
        [DeclEvent.tableImport ⟨.FuncRef, 1, none⟩ "m" "t",
         DeclEvent.table ⟨.FuncRef, 2, none⟩] = .ok env' ∧
      ∃ vo, VMOffsets.new 8 env'.module.localData = some vo ∧
        vo.num_defined_tables = vo.num_imported_tables + 1 := by
  refine ⟨_, rfl, ?_⟩
  obtain ⟨vo, hnew, _, _, _, htab, _, _⟩ :=
    vmoffsets_defined_are_totals ⟨0x10000, 0x80000000, 0x10000⟩ 8
      [DeclEvent.tableImport ⟨.FuncRef, 1, none⟩ "m" "t",
       DeclEvent.table ⟨.FuncRef, 2, none⟩] _ rfl
      (by decide) (by decide) (by decide) (by decide) (by decide) (by decide)
      (by decide) (by decide)
  exact ⟨vo, hnew, htab⟩

/-- Witness for C3 (amended): at a concrete overflow-free `VMOffsets`,
`vmctx_globals_begin` returns exactly the exact-arithmetic value. -/
theorem vmctx_checked_no_silent_wrap_witness :
    ∀ v, VMOffsets.vmctx_globals_begin ⟨8, 2, 1, 0, 0, 0, 0, 0, 0⟩ = some v →
      v = VMOffsets.vmctx_globals_begin_x ⟨8, 2, 1, 0, 0, 0, 0, 0, 0⟩ :=
  ((vmctx_checked_no_silent_wrap ⟨8, 2, 1, 0, 0, 0, 0, 0, 0⟩).2.2.2.2.2.2.2.2.2.2.2.2.2
    (by decide)).1

end Wasmer
